import Mathlib

/-! # pam_dsba: the session hook that publishes DBUS_SESSION_BUS_ADDRESS

A shallow embedding of `pam_dsba.c`.  The PAM library (environment store,
syslog, error strings) and the C library calls are external to the module;
the environment store is taken as a parameter, the calls the module makes to
it are recorded in the handle, and the C string functions are written out on
lists of characters.  What `snprintf` leaves in the buffer when it fails is
not fixed by C and is a parameter as well.
-/

namespace PamDsba

/-! ## C strings and libc -/

/-- A C string: the bytes that precede the terminating NUL, one `Char` per byte. -/
abbrev CStr := List Char

/-- The largest value of a C `int` (32 bits). -/
def INT_MAX : Nat := 2147483647

/-- Result of `strcmp(a, b)`: zero when the strings agree, otherwise the sign of the
first differing byte pair (the end of a string reads as the terminating NUL). -/
def strcmp : CStr → CStr → Int
  | [], [] => 0
  | [], _ :: _ => -1
  | _ :: _, [] => 1
  | a :: as, b :: bs => if a = b then strcmp as bs else if a.toNat < b.toNat then -1 else 1

/-- Result of `strncmp(a, b, n)`: as `strcmp`, but at most `n` bytes are compared. -/
def strncmp : CStr → CStr → Nat → Int
  | _, _, 0 => 0
  | [], [], _ + 1 => 0
  | [], _ :: _, _ + 1 => -1
  | _ :: _, [], _ + 1 => 1
  | a :: as, b :: bs, n + 1 =>
    if a = b then strncmp as bs n else if a.toNat < b.toNat then -1 else 1

/-- Call `snprintf(buf, size, ...)` where `formatted` is the complete formatted text.
When the text has at most `INT_MAX` bytes the buffer receives its first `size - 1` bytes
(then the NUL) and the returned `int` is the length of the complete text.  Otherwise the
call fails (POSIX: EOVERFLOW when more than `INT_MAX` bytes are needed) and returns a
negative value; C does not say what the buffer holds after a failed call, so that text is
the argument `left`, of which the buffer can hold `size - 1` bytes before its NUL. -/
def snprintf (left : CStr) (size : Nat) (formatted : CStr) : CStr × Int :=
  if formatted.length ≤ INT_MAX then (formatted.take (size - 1), (formatted.length : Int))
  else (left.take (size - 1), -1)

/-! ## Constants of the PAM and syslog headers -/

def PAM_SUCCESS : Int := 0
def PAM_SERVICE_ERR : Int := 3
def PAM_SESSION_ERR : Int := 14
def PAM_IGNORE : Int := 25
def PAM_SILENT : Int := 0x8000
def LOG_ERR : Nat := 3
def LOG_INFO : Nat := 6

/-! ## Constants of pam_dsba.c -/

def PATH_MAX : Nat := 4096
def DSBA_NAME_VALUE_PREFIX : CStr := "DBUS_SESSION_BUS_ADDRESS=unix:path=".toList
/-- The macro body is `35 + PATH_MAX`, unparenthesised; every use below is written
with the body expanded in place. -/
def DSBA_NAME_VALUE_MAX_LENGTH : Nat := 35 + PATH_MAX
def DSBA_VALUE_OFFSET : Nat := 25

/-! ## The PAM handle -/

/-- One message handed to `pam_syslog`: the priority and the formatted text. -/
structure LogEntry where
  priority : Nat
  text : CStr
  deriving DecidableEq, Repr

/-- The library functions the module calls, over an environment store `σ`.
`pam_putenv` receives a whole `NAME=value` entry and reports a status together with
the store it leaves behind.  `snprintf_failed arg` is the one thing taken from the C
library: what it leaves in the buffer, after the literal text that precedes the `%s`
conversion, when the `snprintf` call of line 69 fails for the argument `arg`. -/
structure PamLib (σ : Type) where
  pam_getenv : σ → CStr → Option CStr
  pam_putenv : σ → CStr → Int × σ
  pam_strerror : Int → CStr
  snprintf_failed : CStr → CStr

/-- What is observable of a handle: its environment store, the messages logged
through it and the entries handed to `pam_putenv`, oldest first. -/
structure pam_handle_t (σ : Type) where
  env : σ
  syslog : List LogEntry
  putenv_calls : List CStr

/-- Call `pam_syslog(pamh, priority, ...)` with the formatted text `text`. -/
def pam_syslog {σ : Type} (pamh : pam_handle_t σ) (priority : Nat) (text : CStr) :
    pam_handle_t σ :=
  { pamh with syslog := pamh.syslog ++ [⟨priority, text⟩] }

/-- Call `pam_putenv(pamh, name_value)`: the returned status and the handle afterwards. -/
def pam_putenv {σ : Type} (L : PamLib σ) (pamh : pam_handle_t σ) (name_value : CStr) :
    Int × pam_handle_t σ :=
  ((L.pam_putenv pamh.env name_value).1,
   { pamh with env := (L.pam_putenv pamh.env name_value).2,
               putenv_calls := pamh.putenv_calls ++ [name_value] })

/-! ## pam_sm_open_session -/

/-- Line 48: `silent = (flags & PAM_SILENT) == PAM_SILENT`. -/
def is_silent (flags : Int) : Bool := Int.land flags PAM_SILENT == PAM_SILENT

/-- Locals of `pam_sm_open_session` after the option loop, with the handle. -/
structure Options (σ : Type) where
  pamh : pam_handle_t σ
  quiet : Bool
  override : Bool

/-- The loop `for (; argc-- > 0; ++argv)` of lines 51-58, entered with the current
values of `quiet` and `override`. -/
def parse_options {σ : Type} (pamh : pam_handle_t σ) (quiet override : Bool) :
    List CStr → Options σ
  | [] => ⟨pamh, quiet, override⟩
  | arg :: argv =>
    if strcmp arg "quiet".toList = 0 then
      parse_options pamh true override argv
    else if strcmp arg "override".toList = 0 then
      parse_options pamh quiet true argv
    else
      parse_options (pam_syslog pamh LOG_ERR ("Unknown option: ".toList ++ arg))
        quiet override argv

/-- What an entry point returns: the status, the handle afterwards, and the source
line of the `return` statement that was executed. -/
structure Outcome (σ : Type) where
  status : Int
  pamh : pam_handle_t σ
  line : Nat

/-- Lines 102-113 of `pam_sm_open_session`: the assign step, entered with the
formatted buffer `dsba_name_value`. -/
def assign_step {σ : Type} (L : PamLib σ) (pamh : pam_handle_t σ) (silent quiet : Bool)
    (dsba_name_value : CStr) : Outcome σ :=
  let pamh := if !silent && !quiet then
      pam_syslog pamh LOG_INFO ("Assigning ".toList ++ dsba_name_value)
    else pamh
  let r := pam_putenv L pamh dsba_name_value
  if r.1 ≠ PAM_SUCCESS then
    let pamh := if !silent then
        pam_syslog r.2 LOG_ERR
          ("Failed to define DBUS_SESSION_BUS_ADDRESS in env: ".toList ++ L.pam_strerror r.1)
      else r.2
    ⟨PAM_SESSION_ERR, pamh, 110⟩
  else
    ⟨PAM_SUCCESS, r.2, 113⟩

/-- Lines 62-67 of `pam_sm_open_session`: the exit taken when XDG_RUNTIME_DIR is
NULL or its first byte is not a slash. -/
def input_error {σ : Type} (pamh : pam_handle_t σ) (silent : Bool) : Outcome σ :=
  let pamh := if !silent then
      pam_syslog pamh LOG_ERR "Failed to get value of XDG_RUNTIME_DIR or is invalid".toList
    else pamh
  ⟨PAM_SESSION_ERR, pamh, 66⟩

/-- Lines 60-113 of `pam_sm_open_session`, after the option loop. -/
def open_session_body {σ : Type} (L : PamLib σ) (pamh : pam_handle_t σ)
    (silent quiet override : Bool) : Outcome σ :=
  match L.pam_getenv pamh.env "XDG_RUNTIME_DIR".toList with
  | none => input_error pamh silent
  | some xdg_runtime_dir =>
    if xdg_runtime_dir.head? ≠ some '/' then input_error pamh silent
    else
      let fmt := snprintf (DSBA_NAME_VALUE_PREFIX ++ L.snprintf_failed xdg_runtime_dir)
        (35 + PATH_MAX) (DSBA_NAME_VALUE_PREFIX ++ xdg_runtime_dir ++ "/bus".toList)
      let dsba_name_value := fmt.1
      if fmt.2 ≥ ((35 + PATH_MAX : Nat) : Int) then
        let pamh := if !silent then
            pam_syslog pamh LOG_ERR
              ("Generated path exceeds PATH_MAX (".toList ++ (Nat.repr PATH_MAX).toList
                ++ ")".toList)
          else pamh
        ⟨PAM_SESSION_ERR, pamh, 74⟩
      else
        match L.pam_getenv pamh.env "DBUS_SESSION_BUS_ADDRESS".toList with
        | none => assign_step L pamh silent quiet dsba_name_value
        | some current_dsba =>
          if current_dsba ≠ [] then
            if strncmp current_dsba (dsba_name_value.drop DSBA_VALUE_OFFSET) (PATH_MAX + 1) = 0
            then
              let pamh := if !silent && !quiet then
                  pam_syslog pamh LOG_INFO
                    ("DBUS_SESSION_BUS_ADDRESS is already set to the correct value: ".toList
                      ++ current_dsba)
                else pamh
              ⟨PAM_SUCCESS, pamh, 87⟩
            else if override then
              let pamh := if !silent && !quiet then
                  pam_syslog pamh LOG_INFO
                    ("Overriding current DBUS_SESSION_BUS_ADDRESS value: ".toList
                      ++ current_dsba)
                else pamh
              assign_step L pamh silent quiet dsba_name_value
            else
              let pamh := if !silent then
                  pam_syslog pamh LOG_ERR
                    ("DBUS_SESSION_BUS_ADDRESS is already set to a different value: ".toList
                      ++ current_dsba)
                else pamh
              ⟨PAM_SESSION_ERR, pamh, 98⟩
          else assign_step L pamh silent quiet dsba_name_value

/-- The session-open hook, `pam_sm_open_session(pamh, flags, argc, argv)`; `argc` is
the length of `argv`. -/
def pam_sm_open_session {σ : Type} (L : PamLib σ) (pamh : pam_handle_t σ) (flags : Int)
    (argv : List CStr) : Outcome σ :=
  let silent := is_silent flags
  let opts := parse_options pamh false false argv
  open_session_body L opts.pamh silent opts.quiet opts.override

/-! ## The other entry points -/

/-- The session-close hook, `pam_sm_close_session(pamh, flags, argc, argv)`: all four
arguments are cast to void and PAM_IGNORE is returned (line 119). -/
def pam_sm_close_session {σ : Type} (pamh : pam_handle_t σ) (_flags : Int)
    (_argv : List CStr) : Outcome σ :=
  ⟨PAM_IGNORE, pamh, 119⟩

/-- The body the macro `define_should_not_be_called_function(BASIC_NAME)` gives to
`pam_sm_BASIC_NAME` (lines 122-129); `#BASIC_NAME` is the name as a string. -/
def define_should_not_be_called_function {σ : Type} (BASIC_NAME : CStr)
    (pamh : pam_handle_t σ) (_flags : Int) (_argv : List CStr) : Outcome σ :=
  ⟨PAM_SERVICE_ERR,
   pam_syslog pamh LOG_ERR
     ("Module does not provide \x27".toList ++ BASIC_NAME ++ "\x27 function".toList),
   128⟩

/-- Line 131. -/
def pam_sm_authenticate {σ : Type} (pamh : pam_handle_t σ) (flags : Int)
    (argv : List CStr) : Outcome σ :=
  define_should_not_be_called_function "authenticate".toList pamh flags argv

/-- Line 132. -/
def pam_sm_setcred {σ : Type} (pamh : pam_handle_t σ) (flags : Int)
    (argv : List CStr) : Outcome σ :=
  define_should_not_be_called_function "setcred".toList pamh flags argv

/-- Line 133. -/
def pam_sm_acct_mgmt {σ : Type} (pamh : pam_handle_t σ) (flags : Int)
    (argv : List CStr) : Outcome σ :=
  define_should_not_be_called_function "acct_mgmt".toList pamh flags argv

/-- Line 134. -/
def pam_sm_chauthtok {σ : Type} (pamh : pam_handle_t σ) (flags : Int)
    (argv : List CStr) : Outcome σ :=
  define_should_not_be_called_function "chauthtok".toList pamh flags argv

/-! ## A reference environment store -/

/-- Constants of the PAM headers used by the reference store. -/
def PAM_BUF_ERR : Int := 5
def PAM_BAD_ITEM : Int := 29

/-- Split a `NAME=value` entry at its first equals sign; `none` when it has none. -/
def split_entry : CStr → Option (CStr × CStr)
  | [] => none
  | c :: cs =>
    if c = '=' then some ([], cs)
    else (split_entry cs).map (fun nv => (c :: nv.1, nv.2))

/-- An environment store in the manner of Linux-PAM, as a finite map given by a
function.  Its `pam_putenv` reports `fault` and changes nothing when `fault` is not
`PAM_SUCCESS` (an allocation failure, say); otherwise an entry `NAME=value` binds
`NAME` to `value`, and an entry without equals sign deletes the variable.  Its failed
`snprintf` is that of glibc: the output produced so far is in the buffer, the argument
itself when it has at most `INT_MAX` bytes, a field of spaces when it has more. -/
def refLib (fault : Int) : PamLib (CStr → Option CStr) where
  pam_getenv := fun env name => env name
  pam_putenv := fun env name_value =>
    if fault ≠ PAM_SUCCESS then (fault, env)
    else match split_entry name_value with
      | some (name, value) =>
        if name = [] then (PAM_BAD_ITEM, env)
        else (PAM_SUCCESS, fun n => if n = name then some value else env n)
      | none =>
        if name_value = [] ∨ env name_value = none then (PAM_BAD_ITEM, env)
        else (PAM_SUCCESS, fun n => if n = name_value then none else env n)
  pam_strerror := fun r =>
    if r = PAM_SUCCESS then "Success".toList
    else if r = PAM_BUF_ERR then "Memory buffer error".toList
    else if r = PAM_BAD_ITEM then "Bad item passed to pam_*_item()".toList
    else "Unknown PAM error".toList
  snprintf_failed := fun arg =>
    if arg.length ≤ INT_MAX then arg ++ "/bus".toList
    else List.replicate INT_MAX ' '

/-- The environment that binds the listed variables, the first binding of a name
winning, and nothing else. -/
def env_of : List (CStr × CStr) → CStr → Option CStr
  | [], _ => none
  | (name, value) :: rest, n => if n = name then some value else env_of rest n

/-- A fresh handle over the environment `env`: nothing logged, nothing written. -/
def fresh {σ : Type} (env : σ) : pam_handle_t σ := ⟨env, [], []⟩

/-! ## Vocabulary of the statements -/

/-- The error-level entries the option loop logs for `argv`: one for each token that
is neither `quiet` nor `override`, in argument order. -/
def unknown_option_entries (argv : List CStr) : List LogEntry :=
  (argv.filter (fun a => a ≠ "quiet".toList ∧ a ≠ "override".toList)).map
    (fun a => ⟨LOG_ERR, "Unknown option: ".toList ++ a⟩)

/-- The entries logged during an invocation that started from `before`. -/
def emitted {σ : Type} (before : pam_handle_t σ) (res : Outcome σ) : List LogEntry :=
  res.pamh.syslog.drop before.syslog.length

/-- An absolute path of 2147483609 bytes; the entry formatted from it needs
`INT_MAX + 1` bytes. -/
def huge_dir : CStr := '/' :: List.replicate 2147483608 'a'

/-- An absolute path of 4091 bytes, the longest that passes the length check. -/
def long_dir : CStr := '/' :: List.replicate 4090 'a'

/-- The first `PATH_MAX + 1` bytes of the 4105-byte value derived from `long_dir`. -/
def near_value : CStr := ("unix:path=".toList ++ long_dir ++ "/bus".toList).take 4097

/-- An absolute path of 4092 bytes, the shortest that fails the length check. -/
def over_dir : CStr := '/' :: List.replicate 4091 'a'

/-- The input error: XDG_RUNTIME_DIR is absent, empty, or does not start with a slash. -/
def InputError {σ : Type} (L : PamLib σ) (env : σ) : Prop :=
  ∀ p, L.pam_getenv env "XDG_RUNTIME_DIR".toList = some p → p.head? ≠ some '/'

/-- The length error: XDG_RUNTIME_DIR is an absolute path and the test of line 69-70
succeeds. -/
def LengthError {σ : Type} (L : PamLib σ) (env : σ) : Prop :=
  ∃ p, L.pam_getenv env "XDG_RUNTIME_DIR".toList = some p ∧ p.head? = some '/' ∧
    (snprintf (DSBA_NAME_VALUE_PREFIX ++ L.snprintf_failed p)
        (35 + PATH_MAX) (DSBA_NAME_VALUE_PREFIX ++ p ++ "/bus".toList)).2
      ≥ ((35 + PATH_MAX : Nat) : Int)

/-- The rejected conflict: both checks pass, DBUS_SESSION_BUS_ADDRESS is non-empty, the
comparison of line 80-81 finds a difference, and `override` is not among the arguments. -/
def RejectedConflict {σ : Type} (L : PamLib σ) (env : σ) (argv : List CStr) : Prop :=
  ∃ p c, L.pam_getenv env "XDG_RUNTIME_DIR".toList = some p ∧ p.head? = some '/' ∧
    ¬ (snprintf (DSBA_NAME_VALUE_PREFIX ++ L.snprintf_failed p)
        (35 + PATH_MAX) (DSBA_NAME_VALUE_PREFIX ++ p ++ "/bus".toList)).2
      ≥ ((35 + PATH_MAX : Nat) : Int) ∧
    L.pam_getenv env "DBUS_SESSION_BUS_ADDRESS".toList = some c ∧ c ≠ [] ∧
    strncmp c
      ((snprintf (DSBA_NAME_VALUE_PREFIX ++ L.snprintf_failed p)
          (35 + PATH_MAX) (DSBA_NAME_VALUE_PREFIX ++ p ++ "/bus".toList)).1.drop
        DSBA_VALUE_OFFSET) (PATH_MAX + 1) ≠ 0 ∧
    "override".toList ∉ argv

/-- The logging policy in the spec's words: an error-level entry is let through unless
silent mode is set, an informational entry unless silent or quiet mode is set. -/
def audible (silent quiet : Bool) (e : LogEntry) : Bool :=
  if e.priority = LOG_ERR then !silent else !silent && !quiet

/-- A store whose set operation, when it reports success, binds the name before the
first equals sign of the entry to the remainder of the entry. -/
def SetBinds {σ : Type} (L : PamLib σ) : Prop :=
  ∀ (env : σ) (name value : CStr), '=' ∉ name →
    (L.pam_putenv env (name ++ '=' :: value)).1 = PAM_SUCCESS →
    L.pam_getenv (L.pam_putenv env (name ++ '=' :: value)).2 name = some value

/-! ## libc lemmas -/

theorem strcmp_eq_zero (a b : CStr) : strcmp a b = 0 ↔ a = b := by
  induction a generalizing b with
  | nil => cases b <;> simp [strcmp]
  | cons x xs ih =>
    cases b with
    | nil => simp [strcmp]
    | cons y ys =>
      by_cases hxy : x = y
      · simp [strcmp, hxy, ih]
      · simp only [strcmp, hxy, if_false, List.cons.injEq, false_and, iff_false]
        split <;> decide

theorem strncmp_eq_zero (a b : CStr) (n : Nat) :
    strncmp a b n = 0 ↔ a.take n = b.take n := by
  induction n generalizing a b with
  | zero => simp [strncmp]
  | succ n ih =>
    cases a with
    | nil => cases b <;> simp [strncmp]
    | cons x xs =>
      cases b with
      | nil => simp [strncmp]
      | cons y ys =>
        by_cases hxy : x = y
        · simp [strncmp, hxy, ih]
        · simp only [strncmp, hxy, if_false, List.take_succ_cons, List.cons.injEq, false_and,
            iff_false]
          split <;> decide

theorem strncmp_self_of_eq (a : CStr) (n : Nat) : strncmp a a n = 0 :=
  (strncmp_eq_zero a a n).2 rfl

/-- A comparison bounded beyond both lengths is an exact comparison. -/
theorem strncmp_eq_zero_of_short (a b : CStr) (n : Nat) (hb : b.length < n) :
    strncmp a b n = 0 ↔ a = b := by
  rw [strncmp_eq_zero]
  constructor
  · intro h
    have hbt : b.take n = b := List.take_of_length_le (Nat.le_of_lt hb)
    rw [hbt] at h
    have hlen : (a.take n).length = b.length := by rw [h]
    rw [List.length_take] at hlen
    have : a.length ≤ n := by omega
    rw [List.take_of_length_le this] at h
    exact h
  · intro h
    rw [h]

/-! ## The option loop -/

theorem parse_options_env {σ : Type} (pamh : pam_handle_t σ) (q o : Bool) (argv : List CStr) :
    (parse_options pamh q o argv).pamh.env = pamh.env ∧
    (parse_options pamh q o argv).pamh.putenv_calls = pamh.putenv_calls := by
  induction argv generalizing pamh q o with
  | nil => simp [parse_options]
  | cons a as ih =>
    simp only [parse_options]
    split
    · exact ih _ _ _
    · split
      · exact ih _ _ _
      · have := ih (pam_syslog pamh LOG_ERR ("Unknown option: ".toList ++ a)) q o
        simpa [pam_syslog] using this

theorem unknown_option_entries_cons_known (a : CStr) (argv : List CStr)
    (h : a = "quiet".toList ∨ a = "override".toList) :
    unknown_option_entries (a :: argv) = unknown_option_entries argv := by
  unfold unknown_option_entries
  rw [List.filter_cons, if_neg]
  rcases h with h | h <;> simp [h]

theorem unknown_option_entries_cons_unknown (a : CStr) (argv : List CStr)
    (h1 : a ≠ "quiet".toList) (h2 : a ≠ "override".toList) :
    unknown_option_entries (a :: argv) =
      ⟨LOG_ERR, "Unknown option: ".toList ++ a⟩ :: unknown_option_entries argv := by
  unfold unknown_option_entries
  rw [List.filter_cons, if_pos, List.map_cons]
  exact decide_eq_true ⟨h1, h2⟩

theorem parse_options_syslog {σ : Type} (pamh : pam_handle_t σ) (q o : Bool)
    (argv : List CStr) :
    (parse_options pamh q o argv).pamh.syslog = pamh.syslog ++ unknown_option_entries argv := by
  induction argv generalizing pamh q o with
  | nil => simp [parse_options, unknown_option_entries]
  | cons a as ih =>
    simp only [parse_options, strcmp_eq_zero]
    by_cases h1 : a = "quiet".toList
    · rw [if_pos h1, ih, unknown_option_entries_cons_known a as (Or.inl h1)]
    · rw [if_neg h1]
      by_cases h2 : a = "override".toList
      · rw [if_pos h2, ih, unknown_option_entries_cons_known a as (Or.inr h2)]
      · rw [if_neg h2, ih, unknown_option_entries_cons_unknown a as h1 h2]
        simp only [pam_syslog, List.append_assoc, List.singleton_append]

theorem parse_options_quiet {σ : Type} (pamh : pam_handle_t σ) (q o : Bool)
    (argv : List CStr) :
    (parse_options pamh q o argv).quiet = (q || decide ("quiet".toList ∈ argv)) := by
  induction argv generalizing pamh q o with
  | nil => simp [parse_options]
  | cons a as ih =>
    simp only [parse_options, strcmp_eq_zero]
    by_cases h1 : a = "quiet".toList
    · rw [if_pos h1, ih]
      simp [h1]
    · rw [if_neg h1]
      have h1n : ¬ "quiet".toList = a := fun h => h1 h.symm
      by_cases h2 : a = "override".toList
      · rw [if_pos h2, ih]
        simp only [List.mem_cons, h1n, false_or]
      · rw [if_neg h2, ih]
        simp only [List.mem_cons, h1n, false_or]

theorem parse_options_override {σ : Type} (pamh : pam_handle_t σ) (q o : Bool)
    (argv : List CStr) :
    (parse_options pamh q o argv).override = (o || decide ("override".toList ∈ argv)) := by
  induction argv generalizing pamh q o with
  | nil => simp [parse_options]
  | cons a as ih =>
    simp only [parse_options, strcmp_eq_zero]
    by_cases h1 : a = "quiet".toList
    · rw [if_pos h1, ih]
      have h3 : ¬ "override".toList = a := by rw [h1]; decide
      simp only [List.mem_cons, h3, false_or]
    · rw [if_neg h1]
      by_cases h2 : a = "override".toList
      · rw [if_pos h2, ih]
        simp [h2]
      · rw [if_neg h2, ih]
        have h2n : ¬ "override".toList = a := fun h => h2 h.symm
        simp only [List.mem_cons, h2n, false_or]

/-! ## Formatting and the length check -/

theorem dsba_entry_length (p : CStr) :
    (DSBA_NAME_VALUE_PREFIX ++ p ++ "/bus".toList).length = p.length + 39 := by
  have h1 : DSBA_NAME_VALUE_PREFIX.length = 35 := by decide
  have h2 : "/bus".toList.length = 4 := by decide
  rw [List.length_append, List.length_append, h1, h2]
  omega

/-- The test of line 69-70 succeeds exactly when the formatted text has at least
`35 + PATH_MAX` bytes and its length is representable. -/
theorem length_check_iff (left formatted : CStr) :
    (snprintf left (35 + PATH_MAX) formatted).2 ≥ ((35 + PATH_MAX : Nat) : Int) ↔
      35 + PATH_MAX ≤ formatted.length ∧ formatted.length ≤ INT_MAX := by
  unfold snprintf
  by_cases h : formatted.length ≤ INT_MAX
  · simp only [h, if_true, and_true, ge_iff_le]
    exact Int.ofNat_le
  · simp only [h, if_false, and_false, iff_false, ge_iff_le, not_le]
    have : (0 : Int) ≤ ((35 + PATH_MAX : Nat) : Int) := Int.ofNat_nonneg _
    omega

/-- A text shorter than the size handed to `snprintf`, the size itself being in the
range of `int`, is stored whole. -/
theorem snprintf_fits (left : CStr) (size : Nat) (formatted : CStr)
    (h : formatted.length < size) (hsize : size ≤ INT_MAX + 1) :
    (snprintf left size formatted).1 = formatted := by
  unfold snprintf
  rw [if_pos (by omega)]
  exact List.take_of_length_le (by omega)

/-- What a successful call stores: the first `size - 1` bytes of the text. -/
theorem snprintf_stored (left : CStr) (size : Nat) (formatted : CStr)
    (h : formatted.length ≤ INT_MAX) :
    (snprintf left size formatted).1 = formatted.take (size - 1) := by
  unfold snprintf
  rw [if_pos h]

/-- What a failed call leaves: the first `size - 1` bytes of `left`. -/
theorem snprintf_left (left : CStr) (size : Nat) (formatted : CStr)
    (h : ¬ formatted.length ≤ INT_MAX) :
    (snprintf left size formatted).1 = left.take (size - 1) := by
  unfold snprintf
  rw [if_neg h]

/-- The buffer never holds more than `size - 1` bytes before its NUL. -/
theorem snprintf_length_le (left : CStr) (size : Nat) (formatted : CStr) :
    (snprintf left size formatted).1.length ≤ size - 1 := by
  unfold snprintf
  split <;> simp only [List.length_take] <;> omega

theorem size_in_int_range : 35 + PATH_MAX ≤ INT_MAX + 1 := by decide

/-! ## The assign step -/

theorem assign_step_putenv_calls {σ : Type} (L : PamLib σ) (pamh : pam_handle_t σ)
    (s q : Bool) (buf : CStr) :
    (assign_step L pamh s q buf).pamh.putenv_calls = pamh.putenv_calls ++ [buf] ∧
    (assign_step L pamh s q buf).pamh.env = (L.pam_putenv pamh.env buf).2 := by
  unfold assign_step
  by_cases hr : (L.pam_putenv pamh.env buf).1 = PAM_SUCCESS <;>
    cases s <;> cases q <;> simp [pam_putenv, pam_syslog, hr]

theorem assign_step_status {σ : Type} (L : PamLib σ) (pamh : pam_handle_t σ)
    (s q : Bool) (buf : CStr) :
    ((L.pam_putenv pamh.env buf).1 = PAM_SUCCESS →
      (assign_step L pamh s q buf).status = PAM_SUCCESS ∧
      (assign_step L pamh s q buf).line = 113) ∧
    ((L.pam_putenv pamh.env buf).1 ≠ PAM_SUCCESS →
      (assign_step L pamh s q buf).status = PAM_SESSION_ERR ∧
      (assign_step L pamh s q buf).line = 110) := by
  unfold assign_step
  constructor <;> intro hr <;> cases s <;> cases q <;> simp [pam_putenv, pam_syslog, hr]

theorem assign_step_syslog {σ : Type} (L : PamLib σ) (pamh : pam_handle_t σ)
    (s q : Bool) (buf : CStr) :
    (assign_step L pamh s q buf).pamh.syslog =
      pamh.syslog
        ++ (if !s && !q then [⟨LOG_INFO, "Assigning ".toList ++ buf⟩] else [])
        ++ (if (L.pam_putenv pamh.env buf).1 ≠ PAM_SUCCESS ∧ s = false then
              [⟨LOG_ERR, "Failed to define DBUS_SESSION_BUS_ADDRESS in env: ".toList
                ++ L.pam_strerror (L.pam_putenv pamh.env buf).1⟩]
            else []) := by
  unfold assign_step
  by_cases hr : (L.pam_putenv pamh.env buf).1 = PAM_SUCCESS <;>
    cases s <;> cases q <;> simp [pam_putenv, pam_syslog, hr]

/-! ## The exits of the body -/

theorem body_input_error {σ : Type} (L : PamLib σ) (pamh : pam_handle_t σ) (s q o : Bool)
    (hx : ∀ p, L.pam_getenv pamh.env "XDG_RUNTIME_DIR".toList = some p → p.head? ≠ some '/') :
    open_session_body L pamh s q o = input_error pamh s := by
  unfold open_session_body
  cases hg : L.pam_getenv pamh.env "XDG_RUNTIME_DIR".toList with
  | none => rfl
  | some p => simp only [hx p hg, ne_eq, not_false_eq_true, if_true]

theorem body_length_error {σ : Type} (L : PamLib σ) (pamh : pam_handle_t σ) (s q o : Bool)
    (p : CStr) (hx : L.pam_getenv pamh.env "XDG_RUNTIME_DIR".toList = some p)
    (habs : p.head? = some '/')
    (hlen : (snprintf (DSBA_NAME_VALUE_PREFIX ++ L.snprintf_failed p)
        (35 + PATH_MAX) (DSBA_NAME_VALUE_PREFIX ++ p ++ "/bus".toList)).2
      ≥ ((35 + PATH_MAX : Nat) : Int)) :
    open_session_body L pamh s q o =
      ⟨PAM_SESSION_ERR,
       if !s then pam_syslog pamh LOG_ERR
         ("Generated path exceeds PATH_MAX (".toList ++ (Nat.repr PATH_MAX).toList
           ++ ")".toList)
       else pamh, 74⟩ := by
  unfold open_session_body
  simp only [hx, habs, ne_eq, not_true_eq_false, if_false, hlen, if_true]

theorem body_checks_passed {σ : Type} (L : PamLib σ) (pamh : pam_handle_t σ) (s q o : Bool)
    (p : CStr) (hx : L.pam_getenv pamh.env "XDG_RUNTIME_DIR".toList = some p)
    (habs : p.head? = some '/')
    (hlen : ¬ (snprintf (DSBA_NAME_VALUE_PREFIX ++ L.snprintf_failed p)
        (35 + PATH_MAX) (DSBA_NAME_VALUE_PREFIX ++ p ++ "/bus".toList)).2
      ≥ ((35 + PATH_MAX : Nat) : Int)) :
    open_session_body L pamh s q o =
      match L.pam_getenv pamh.env "DBUS_SESSION_BUS_ADDRESS".toList with
      | none => assign_step L pamh s q
          (snprintf (DSBA_NAME_VALUE_PREFIX ++ L.snprintf_failed p)
              (35 + PATH_MAX) (DSBA_NAME_VALUE_PREFIX ++ p ++ "/bus".toList)).1
      | some current_dsba =>
        if current_dsba ≠ [] then
          if strncmp current_dsba
              ((snprintf (DSBA_NAME_VALUE_PREFIX ++ L.snprintf_failed p)
                  (35 + PATH_MAX) (DSBA_NAME_VALUE_PREFIX ++ p ++ "/bus".toList)).1.drop
                DSBA_VALUE_OFFSET) (PATH_MAX + 1) = 0
          then
            ⟨PAM_SUCCESS,
             if !s && !q then
               pam_syslog pamh LOG_INFO
                 ("DBUS_SESSION_BUS_ADDRESS is already set to the correct value: ".toList
                   ++ current_dsba)
             else pamh, 87⟩
          else if o then
            assign_step L
              (if !s && !q then
                 pam_syslog pamh LOG_INFO
                   ("Overriding current DBUS_SESSION_BUS_ADDRESS value: ".toList
                     ++ current_dsba)
               else pamh) s q
              (snprintf (DSBA_NAME_VALUE_PREFIX ++ L.snprintf_failed p)
                  (35 + PATH_MAX) (DSBA_NAME_VALUE_PREFIX ++ p ++ "/bus".toList)).1
          else
            ⟨PAM_SESSION_ERR,
             if !s then
               pam_syslog pamh LOG_ERR
                 ("DBUS_SESSION_BUS_ADDRESS is already set to a different value: ".toList
                   ++ current_dsba)
             else pamh, 98⟩
        else assign_step L pamh s q
          (snprintf (DSBA_NAME_VALUE_PREFIX ++ L.snprintf_failed p)
              (35 + PATH_MAX) (DSBA_NAME_VALUE_PREFIX ++ p ++ "/bus".toList)).1 := by
  unfold open_session_body
  simp only [hx, habs, ne_eq, not_true_eq_false, if_false, hlen]

theorem body_assign_unset {σ : Type} (L : PamLib σ) (pamh : pam_handle_t σ) (s q o : Bool)
    (p : CStr) (hx : L.pam_getenv pamh.env "XDG_RUNTIME_DIR".toList = some p)
    (habs : p.head? = some '/')
    (hlen : ¬ (snprintf (DSBA_NAME_VALUE_PREFIX ++ L.snprintf_failed p)
        (35 + PATH_MAX) (DSBA_NAME_VALUE_PREFIX ++ p ++ "/bus".toList)).2
      ≥ ((35 + PATH_MAX : Nat) : Int))
    (hcur : L.pam_getenv pamh.env "DBUS_SESSION_BUS_ADDRESS".toList = none ∨
      L.pam_getenv pamh.env "DBUS_SESSION_BUS_ADDRESS".toList = some []) :
    open_session_body L pamh s q o =
      assign_step L pamh s q
        (snprintf (DSBA_NAME_VALUE_PREFIX ++ L.snprintf_failed p)
            (35 + PATH_MAX) (DSBA_NAME_VALUE_PREFIX ++ p ++ "/bus".toList)).1 := by
  rw [body_checks_passed L pamh s q o p hx habs hlen]
  rcases hcur with h | h <;> simp only [h, ne_eq, not_true_eq_false, if_false]

theorem body_already_correct {σ : Type} (L : PamLib σ) (pamh : pam_handle_t σ) (s q o : Bool)
    (p c : CStr) (hx : L.pam_getenv pamh.env "XDG_RUNTIME_DIR".toList = some p)
    (habs : p.head? = some '/')
    (hlen : ¬ (snprintf (DSBA_NAME_VALUE_PREFIX ++ L.snprintf_failed p)
        (35 + PATH_MAX) (DSBA_NAME_VALUE_PREFIX ++ p ++ "/bus".toList)).2
      ≥ ((35 + PATH_MAX : Nat) : Int))
    (hcur : L.pam_getenv pamh.env "DBUS_SESSION_BUS_ADDRESS".toList = some c)
    (hne : c ≠ [])
    (hcmp : strncmp c
      ((snprintf (DSBA_NAME_VALUE_PREFIX ++ L.snprintf_failed p)
          (35 + PATH_MAX) (DSBA_NAME_VALUE_PREFIX ++ p ++ "/bus".toList)).1.drop
        DSBA_VALUE_OFFSET) (PATH_MAX + 1) = 0) :
    open_session_body L pamh s q o =
      ⟨PAM_SUCCESS,
       if !s && !q then
         pam_syslog pamh LOG_INFO
           ("DBUS_SESSION_BUS_ADDRESS is already set to the correct value: ".toList ++ c)
       else pamh, 87⟩ := by
  rw [body_checks_passed L pamh s q o p hx habs hlen]
  simp only [hcur, ne_eq, hne, not_false_eq_true, if_true, hcmp]

theorem body_override {σ : Type} (L : PamLib σ) (pamh : pam_handle_t σ) (s q : Bool)
    (p c : CStr) (hx : L.pam_getenv pamh.env "XDG_RUNTIME_DIR".toList = some p)
    (habs : p.head? = some '/')
    (hlen : ¬ (snprintf (DSBA_NAME_VALUE_PREFIX ++ L.snprintf_failed p)
        (35 + PATH_MAX) (DSBA_NAME_VALUE_PREFIX ++ p ++ "/bus".toList)).2
      ≥ ((35 + PATH_MAX : Nat) : Int))
    (hcur : L.pam_getenv pamh.env "DBUS_SESSION_BUS_ADDRESS".toList = some c)
    (hne : c ≠ [])
    (hcmp : strncmp c
      ((snprintf (DSBA_NAME_VALUE_PREFIX ++ L.snprintf_failed p)
          (35 + PATH_MAX) (DSBA_NAME_VALUE_PREFIX ++ p ++ "/bus".toList)).1.drop
        DSBA_VALUE_OFFSET) (PATH_MAX + 1) ≠ 0) :
    open_session_body L pamh s q true =
      assign_step L
        (if !s && !q then
           pam_syslog pamh LOG_INFO
             ("Overriding current DBUS_SESSION_BUS_ADDRESS value: ".toList ++ c)
         else pamh) s q
        (snprintf (DSBA_NAME_VALUE_PREFIX ++ L.snprintf_failed p)
            (35 + PATH_MAX) (DSBA_NAME_VALUE_PREFIX ++ p ++ "/bus".toList)).1 := by
  rw [body_checks_passed L pamh s q true p hx habs hlen]
  simp only [hcur, ne_eq, hne, not_false_eq_true, if_true, hcmp, if_false]

theorem body_reject {σ : Type} (L : PamLib σ) (pamh : pam_handle_t σ) (s q : Bool)
    (p c : CStr) (hx : L.pam_getenv pamh.env "XDG_RUNTIME_DIR".toList = some p)
    (habs : p.head? = some '/')
    (hlen : ¬ (snprintf (DSBA_NAME_VALUE_PREFIX ++ L.snprintf_failed p)
        (35 + PATH_MAX) (DSBA_NAME_VALUE_PREFIX ++ p ++ "/bus".toList)).2
      ≥ ((35 + PATH_MAX : Nat) : Int))
    (hcur : L.pam_getenv pamh.env "DBUS_SESSION_BUS_ADDRESS".toList = some c)
    (hne : c ≠ [])
    (hcmp : strncmp c
      ((snprintf (DSBA_NAME_VALUE_PREFIX ++ L.snprintf_failed p)
          (35 + PATH_MAX) (DSBA_NAME_VALUE_PREFIX ++ p ++ "/bus".toList)).1.drop
        DSBA_VALUE_OFFSET) (PATH_MAX + 1) ≠ 0) :
    open_session_body L pamh s q false =
      ⟨PAM_SESSION_ERR,
       if !s then
         pam_syslog pamh LOG_ERR
           ("DBUS_SESSION_BUS_ADDRESS is already set to a different value: ".toList ++ c)
       else pamh, 98⟩ := by
  rw [body_checks_passed L pamh s q false p hx habs hlen]
  simp only [hcur, ne_eq, hne, not_false_eq_true, if_true, hcmp, if_false, Bool.false_eq_true]

theorem open_session_unfold {σ : Type} (L : PamLib σ) (pamh : pam_handle_t σ) (flags : Int)
    (argv : List CStr) :
    pam_sm_open_session L pamh flags argv =
      open_session_body L (parse_options pamh false false argv).pamh (is_silent flags)
        (parse_options pamh false false argv).quiet
        (parse_options pamh false false argv).override :=
  rfl

theorem assign_step_frame {σ : Type} (L : PamLib σ) (pamh : pam_handle_t σ) (s q : Bool)
    (buf : CStr) :
    (assign_step L pamh s q buf).status = (assign_step L ⟨pamh.env, [], []⟩ s q buf).status ∧
    (assign_step L pamh s q buf).line = (assign_step L ⟨pamh.env, [], []⟩ s q buf).line ∧
    (assign_step L pamh s q buf).pamh.env = (assign_step L ⟨pamh.env, [], []⟩ s q buf).pamh.env ∧
    (assign_step L pamh s q buf).pamh.putenv_calls =
      pamh.putenv_calls ++ (assign_step L ⟨pamh.env, [], []⟩ s q buf).pamh.putenv_calls ∧
    (assign_step L pamh s q buf).pamh.syslog =
      pamh.syslog ++ (assign_step L ⟨pamh.env, [], []⟩ s q buf).pamh.syslog := by
  have h1 := assign_step_putenv_calls L pamh s q buf
  have h2 := assign_step_putenv_calls L ⟨pamh.env, [], []⟩ s q buf
  have h3 := assign_step_syslog L pamh s q buf
  have h4 := assign_step_syslog L ⟨pamh.env, [], []⟩ s q buf
  have h5 := assign_step_status L pamh s q buf
  have h6 := assign_step_status L ⟨pamh.env, [], []⟩ s q buf
  refine ⟨?_, ?_, ?_, ?_, ?_⟩
  · by_cases hr : (L.pam_putenv pamh.env buf).1 = PAM_SUCCESS
    · rw [(h5.1 hr).1, (h6.1 hr).1]
    · rw [(h5.2 hr).1, (h6.2 hr).1]
  · by_cases hr : (L.pam_putenv pamh.env buf).1 = PAM_SUCCESS
    · rw [(h5.1 hr).2, (h6.1 hr).2]
    · rw [(h5.2 hr).2, (h6.2 hr).2]
  · rw [h1.2, h2.2]
  · rw [h1.1, h2.1]; rfl
  · rw [h3, h4]
    simp only [List.nil_append, List.append_assoc]

/-- The body acts on the handle only by appending: its status, exit, store and the
entries it logs and writes are those of a run on a fresh handle over the same store. -/
theorem body_frame {σ : Type} (L : PamLib σ) (pamh : pam_handle_t σ) (s q o : Bool) :
    (open_session_body L pamh s q o).status
      = (open_session_body L ⟨pamh.env, [], []⟩ s q o).status ∧
    (open_session_body L pamh s q o).line
      = (open_session_body L ⟨pamh.env, [], []⟩ s q o).line ∧
    (open_session_body L pamh s q o).pamh.env
      = (open_session_body L ⟨pamh.env, [], []⟩ s q o).pamh.env ∧
    (open_session_body L pamh s q o).pamh.putenv_calls =
      pamh.putenv_calls ++ (open_session_body L ⟨pamh.env, [], []⟩ s q o).pamh.putenv_calls ∧
    (open_session_body L pamh s q o).pamh.syslog =
      pamh.syslog ++ (open_session_body L ⟨pamh.env, [], []⟩ s q o).pamh.syslog := by
  by_cases hin : ∀ p, L.pam_getenv pamh.env "XDG_RUNTIME_DIR".toList = some p →
      p.head? ≠ some '/'
  · rw [body_input_error L pamh s q o hin, body_input_error L ⟨pamh.env, [], []⟩ s q o hin]
    unfold input_error
    cases s <;> simp [pam_syslog]
  · simp only [not_forall, ne_eq, not_not] at hin
    obtain ⟨p, hx, habs⟩ := hin
    by_cases hlen : (snprintf (DSBA_NAME_VALUE_PREFIX ++ L.snprintf_failed p) (35 + PATH_MAX)
        (DSBA_NAME_VALUE_PREFIX ++ p ++ "/bus".toList)).2 ≥ ((35 + PATH_MAX : Nat) : Int)
    · rw [body_length_error L pamh s q o p hx habs hlen,
        body_length_error L ⟨pamh.env, [], []⟩ s q o p hx habs hlen]
      cases s <;> simp [pam_syslog]
    · cases hcur : L.pam_getenv pamh.env "DBUS_SESSION_BUS_ADDRESS".toList with
      | none =>
        rw [body_assign_unset L pamh s q o p hx habs hlen (Or.inl hcur),
          body_assign_unset L ⟨pamh.env, [], []⟩ s q o p hx habs hlen (Or.inl hcur)]
        exact assign_step_frame L pamh s q _
      | some c =>
        by_cases hc : c = []
        · subst hc
          rw [body_assign_unset L pamh s q o p hx habs hlen (Or.inr hcur),
            body_assign_unset L ⟨pamh.env, [], []⟩ s q o p hx habs hlen (Or.inr hcur)]
          exact assign_step_frame L pamh s q _
        · by_cases hcmp : strncmp c
            ((snprintf (DSBA_NAME_VALUE_PREFIX ++ L.snprintf_failed p)
                (35 + PATH_MAX) (DSBA_NAME_VALUE_PREFIX ++ p ++ "/bus".toList)).1.drop
              DSBA_VALUE_OFFSET) (PATH_MAX + 1) = 0
          · rw [body_already_correct L pamh s q o p c hx habs hlen hcur hc hcmp,
              body_already_correct L ⟨pamh.env, [], []⟩ s q o p c hx habs hlen hcur hc hcmp]
            cases s <;> cases q <;> simp [pam_syslog]
          · cases o with
            | false =>
              rw [body_reject L pamh s q p c hx habs hlen hcur hc hcmp,
                body_reject L ⟨pamh.env, [], []⟩ s q p c hx habs hlen hcur hc hcmp]
              cases s <;> simp [pam_syslog]
            | true =>
              rw [body_override L pamh s q p c hx habs hlen hcur hc hcmp,
                body_override L ⟨pamh.env, [], []⟩ s q p c hx habs hlen hcur hc hcmp]
              have f1 := assign_step_frame L
                (if !s && !q then pam_syslog pamh LOG_INFO
                  ("Overriding current DBUS_SESSION_BUS_ADDRESS value: ".toList ++ c)
                 else pamh) s q
                (snprintf (DSBA_NAME_VALUE_PREFIX ++ L.snprintf_failed p)
                    (35 + PATH_MAX) (DSBA_NAME_VALUE_PREFIX ++ p ++ "/bus".toList)).1
              have f2 := assign_step_frame L
                (if !s && !q then pam_syslog (⟨pamh.env, [], []⟩ : pam_handle_t σ) LOG_INFO
                  ("Overriding current DBUS_SESSION_BUS_ADDRESS value: ".toList ++ c)
                 else ⟨pamh.env, [], []⟩) s q
                (snprintf (DSBA_NAME_VALUE_PREFIX ++ L.snprintf_failed p)
                    (35 + PATH_MAX) (DSBA_NAME_VALUE_PREFIX ++ p ++ "/bus".toList)).1
              have e1 : (if !s && !q then pam_syslog pamh LOG_INFO
                  ("Overriding current DBUS_SESSION_BUS_ADDRESS value: ".toList ++ c)
                 else pamh).env = pamh.env := by
                cases s <;> cases q <;> rfl
              have e2 : (if !s && !q then pam_syslog (⟨pamh.env, [], []⟩ : pam_handle_t σ)
                  LOG_INFO ("Overriding current DBUS_SESSION_BUS_ADDRESS value: ".toList ++ c)
                 else ⟨pamh.env, [], []⟩).env = pamh.env := by
                cases s <;> cases q <;> rfl
              rw [e1] at f1
              rw [e2] at f2
              refine ⟨f1.1.trans f2.1.symm, f1.2.1.trans f2.2.1.symm,
                f1.2.2.1.trans f2.2.2.1.symm, ?_, ?_⟩
              · rw [f1.2.2.2.1, f2.2.2.2.1]
                cases s <;> cases q <;> simp [pam_syslog]
              · rw [f1.2.2.2.2, f2.2.2.2.2]
                cases s <;> cases q <;> simp [pam_syslog]

/-- The hook in terms of its body run on a fresh handle: the option loop contributes
the unknown-option entries and the two policy flags, nothing else. -/
theorem open_session_frame {σ : Type} (L : PamLib σ) (pamh : pam_handle_t σ) (flags : Int)
    (argv : List CStr) :
    (pam_sm_open_session L pamh flags argv).status
      = (open_session_body L ⟨pamh.env, [], []⟩ (is_silent flags)
          (decide ("quiet".toList ∈ argv)) (decide ("override".toList ∈ argv))).status ∧
    (pam_sm_open_session L pamh flags argv).line
      = (open_session_body L ⟨pamh.env, [], []⟩ (is_silent flags)
          (decide ("quiet".toList ∈ argv)) (decide ("override".toList ∈ argv))).line ∧
    (pam_sm_open_session L pamh flags argv).pamh.env
      = (open_session_body L ⟨pamh.env, [], []⟩ (is_silent flags)
          (decide ("quiet".toList ∈ argv)) (decide ("override".toList ∈ argv))).pamh.env ∧
    (pam_sm_open_session L pamh flags argv).pamh.putenv_calls
      = pamh.putenv_calls ++ (open_session_body L ⟨pamh.env, [], []⟩ (is_silent flags)
          (decide ("quiet".toList ∈ argv))
          (decide ("override".toList ∈ argv))).pamh.putenv_calls ∧
    emitted pamh (pam_sm_open_session L pamh flags argv)
      = unknown_option_entries argv ++ (open_session_body L ⟨pamh.env, [], []⟩
          (is_silent flags) (decide ("quiet".toList ∈ argv))
          (decide ("override".toList ∈ argv))).pamh.syslog := by
  have hpe := parse_options_env pamh false false argv
  have hps := parse_options_syslog pamh false false argv
  have hq := parse_options_quiet pamh false false argv
  have ho := parse_options_override pamh false false argv
  rw [Bool.false_or] at hq ho
  have hf := body_frame L (parse_options pamh false false argv).pamh (is_silent flags)
    (parse_options pamh false false argv).quiet (parse_options pamh false false argv).override
  rw [hpe.1, hq, ho] at hf
  unfold emitted
  rw [open_session_unfold, hq, ho]
  refine ⟨hf.1, hf.2.1, hf.2.2.1, ?_, ?_⟩
  · rw [hf.2.2.2.1, hpe.2]
  · rw [hf.2.2.2.2, hps, List.append_assoc, List.drop_left]

/-- Every run of the body on a fresh handle leaves by one of five ways: the input
error, the length error, the already-correct exit, the rejected conflict, or the assign
step (entered after at most one informational "Overriding" entry). -/
theorem body_cases {σ : Type} (L : PamLib σ) (env : σ) (s q o : Bool) :
    open_session_body L ⟨env, [], []⟩ s q o = input_error ⟨env, [], []⟩ s ∨
    (∃ msg, open_session_body L ⟨env, [], []⟩ s q o =
      ⟨PAM_SESSION_ERR, if !s then pam_syslog ⟨env, [], []⟩ LOG_ERR msg else ⟨env, [], []⟩, 74⟩) ∨
    (∃ c, open_session_body L ⟨env, [], []⟩ s q o =
      ⟨PAM_SUCCESS,
       if !s && !q then pam_syslog ⟨env, [], []⟩ LOG_INFO
         ("DBUS_SESSION_BUS_ADDRESS is already set to the correct value: ".toList ++ c)
       else ⟨env, [], []⟩, 87⟩) ∨
    (∃ c, open_session_body L ⟨env, [], []⟩ s q o =
      ⟨PAM_SESSION_ERR,
       if !s then pam_syslog ⟨env, [], []⟩ LOG_ERR
         ("DBUS_SESSION_BUS_ADDRESS is already set to a different value: ".toList ++ c)
       else ⟨env, [], []⟩, 98⟩) ∨
    (∃ p pre, L.pam_getenv env "XDG_RUNTIME_DIR".toList = some p ∧
      ¬ (snprintf (DSBA_NAME_VALUE_PREFIX ++ L.snprintf_failed p)
          (35 + PATH_MAX) (DSBA_NAME_VALUE_PREFIX ++ p ++ "/bus".toList)).2
        ≥ ((35 + PATH_MAX : Nat) : Int) ∧
      (∀ e ∈ pre, e.priority = LOG_INFO) ∧
      open_session_body L ⟨env, [], []⟩ s q o = assign_step L ⟨env, pre, []⟩ s q
        (snprintf (DSBA_NAME_VALUE_PREFIX ++ L.snprintf_failed p)
            (35 + PATH_MAX) (DSBA_NAME_VALUE_PREFIX ++ p ++ "/bus".toList)).1) := by
  by_cases hin : ∀ p, L.pam_getenv env "XDG_RUNTIME_DIR".toList = some p → p.head? ≠ some '/'
  · exact Or.inl (body_input_error L ⟨env, [], []⟩ s q o hin)
  · simp only [not_forall, ne_eq, not_not] at hin
    obtain ⟨p, hx, habs⟩ := hin
    by_cases hlen : (snprintf (DSBA_NAME_VALUE_PREFIX ++ L.snprintf_failed p) (35 + PATH_MAX)
        (DSBA_NAME_VALUE_PREFIX ++ p ++ "/bus".toList)).2 ≥ ((35 + PATH_MAX : Nat) : Int)
    · exact Or.inr (Or.inl ⟨_, body_length_error L ⟨env, [], []⟩ s q o p hx habs hlen⟩)
    · cases hcur : L.pam_getenv env "DBUS_SESSION_BUS_ADDRESS".toList with
      | none =>
        exact Or.inr (Or.inr (Or.inr (Or.inr ⟨p, [], hx, hlen,
          fun e he => absurd he (List.not_mem_nil e),
          body_assign_unset L ⟨env, [], []⟩ s q o p hx habs hlen (Or.inl hcur)⟩)))
      | some c =>
        by_cases hc : c = []
        · subst hc
          exact Or.inr (Or.inr (Or.inr (Or.inr ⟨p, [], hx, hlen,
            fun e he => absurd he (List.not_mem_nil e),
            body_assign_unset L ⟨env, [], []⟩ s q o p hx habs hlen (Or.inr hcur)⟩)))
        · by_cases hcmp : strncmp c
            ((snprintf (DSBA_NAME_VALUE_PREFIX ++ L.snprintf_failed p)
                (35 + PATH_MAX) (DSBA_NAME_VALUE_PREFIX ++ p ++ "/bus".toList)).1.drop
              DSBA_VALUE_OFFSET) (PATH_MAX + 1) = 0
          · exact Or.inr (Or.inr (Or.inl
              ⟨c, body_already_correct L ⟨env, [], []⟩ s q o p c hx habs hlen hcur hc hcmp⟩))
          · cases o with
            | false =>
              exact Or.inr (Or.inr (Or.inr (Or.inl
                ⟨c, body_reject L ⟨env, [], []⟩ s q p c hx habs hlen hcur hc hcmp⟩)))
            | true =>
              refine Or.inr (Or.inr (Or.inr (Or.inr
                ⟨p,
                if !s && !q then
                  [⟨LOG_INFO, "Overriding current DBUS_SESSION_BUS_ADDRESS value: ".toList ++ c⟩]
                else [], hx, hlen, ?_, ?_⟩)))
              · intro e he
                cases s <;> cases q <;> simp at he
                rw [he]
              · rw [body_override L ⟨env, [], []⟩ s q p c hx habs hlen hcur hc hcmp]
                cases s <;> cases q <;> rfl

theorem filter_err_of_info (pre : List LogEntry) (h : ∀ e ∈ pre, e.priority = LOG_INFO) :
    pre.filter (fun e => decide (e.priority = LOG_ERR)) = [] := by
  rw [List.filter_eq_nil_iff]
  intro e he
  rw [h e he]
  decide

theorem filter_err_unknown (argv : List CStr) :
    (unknown_option_entries argv).filter (fun e => decide (e.priority = LOG_ERR))
      = unknown_option_entries argv := by
  rw [List.filter_eq_self]
  intro e he
  unfold unknown_option_entries at he
  rw [List.mem_map] at he
  obtain ⟨a, _, rfl⟩ := he
  exact decide_eq_true rfl

theorem filter_info_unknown (argv : List CStr) :
    (unknown_option_entries argv).filter (fun e => decide (e.priority = LOG_INFO)) = [] := by
  rw [List.filter_eq_nil_iff]
  intro e he
  unfold unknown_option_entries at he
  rw [List.mem_map] at he
  obtain ⟨a, _, rfl⟩ := he
  show ¬ decide (LOG_ERR = LOG_INFO) = true
  decide

/-! ## The reference store -/

theorem split_entry_append (name value : CStr) (h : '=' ∉ name) :
    split_entry (name ++ '=' :: value) = some (name, value) := by
  induction name with
  | nil => simp [split_entry]
  | cons c cs ih =>
    have hc : c ≠ '=' := fun hc => h (by rw [hc]; exact List.mem_cons_self _ _)
    have hcs : '=' ∉ cs := fun hm => h (List.mem_cons_of_mem _ hm)
    show split_entry (c :: (cs ++ '=' :: value)) = some (c :: cs, value)
    simp only [split_entry, hc, if_false, ih hcs, Option.map_some']

theorem refLib_putenv_binds (env : CStr → Option CStr) (name value : CStr)
    (h : '=' ∉ name) (hne : name ≠ []) :
    (refLib PAM_SUCCESS).pam_putenv env (name ++ '=' :: value) =
      (PAM_SUCCESS, fun n => if n = name then some value else env n) := by
  simp only [refLib, ne_eq, not_true_eq_false, if_false, split_entry_append name value h, hne]

theorem refLib_snprintf_failed (fault : Int) (arg : CStr) (h : arg.length ≤ INT_MAX) :
    (refLib fault).snprintf_failed arg = arg ++ "/bus".toList :=
  if_pos h

theorem refLib_setBinds (fault : Int) : SetBinds (refLib fault) := by
  intro env name value h hs
  by_cases hf : fault = PAM_SUCCESS
  · subst hf
    by_cases hne : name = []
    · subst hne
      simp [refLib, split_entry, PAM_BAD_ITEM, PAM_SUCCESS] at hs
    · rw [refLib_putenv_binds env name value h hne]
      simp [refLib]
  · simp [refLib, hf] at hs

/-! ## Claims -/

theorem dsba_entry_split (p : CStr) :
    "DBUS_SESSION_BUS_ADDRESS=unix:path=".toList ++ p ++ "/bus".toList =
      "DBUS_SESSION_BUS_ADDRESS".toList ++ '=' :: ("unix:path=".toList ++ p ++ "/bus".toList) :=
  rfl

/-- C1: when XDG_RUNTIME_DIR holds an absolute path `p` with
`len(p) < PATH_MAX - (35 + 4)`, DBUS_SESSION_BUS_ADDRESS is absent or empty and the
store's set operation succeeds, the hook makes exactly one write (the entry
`DBUS_SESSION_BUS_ADDRESS=unix:path=p/bus`), returns PAM_SUCCESS, and the store
afterwards holds DBUS_SESSION_BUS_ADDRESS = `unix:path=p/bus`, for every argument list
and flags. -/
theorem C1_assign_when_unset {σ : Type} (L : PamLib σ) (pamh : pam_handle_t σ) (flags : Int)
    (argv : List CStr) (p : CStr)
    (hbinds : SetBinds L)
    (hx : L.pam_getenv pamh.env "XDG_RUNTIME_DIR".toList = some p)
    (habs : p.head? = some '/')
    (hlen : p.length < PATH_MAX - (35 + 4))
    (hcur : L.pam_getenv pamh.env "DBUS_SESSION_BUS_ADDRESS".toList = none ∨
      L.pam_getenv pamh.env "DBUS_SESSION_BUS_ADDRESS".toList = some [])
    (hset : (L.pam_putenv pamh.env
      ("DBUS_SESSION_BUS_ADDRESS=unix:path=".toList ++ p ++ "/bus".toList)).1 = PAM_SUCCESS) :
    (pam_sm_open_session L pamh flags argv).status = PAM_SUCCESS ∧
    (pam_sm_open_session L pamh flags argv).pamh.putenv_calls =
      pamh.putenv_calls ++ ["DBUS_SESSION_BUS_ADDRESS=unix:path=".toList ++ p ++ "/bus".toList] ∧
    L.pam_getenv (pam_sm_open_session L pamh flags argv).pamh.env
      "DBUS_SESSION_BUS_ADDRESS".toList = some ("unix:path=".toList ++ p ++ "/bus".toList) := by
  have hpe := parse_options_env pamh false false argv
  have hshort : (DSBA_NAME_VALUE_PREFIX ++ p ++ "/bus".toList).length < 35 + PATH_MAX := by
    rw [dsba_entry_length]
    have : PATH_MAX = 4096 := rfl
    omega
  have hpass : ¬ (snprintf (DSBA_NAME_VALUE_PREFIX ++ L.snprintf_failed p)
      (35 + PATH_MAX) (DSBA_NAME_VALUE_PREFIX ++ p ++ "/bus".toList)).2
      ≥ ((35 + PATH_MAX : Nat) : Int) := by
    rw [length_check_iff]
    omega
  have hbuf := snprintf_fits (DSBA_NAME_VALUE_PREFIX ++ L.snprintf_failed p)
      (35 + PATH_MAX) _ hshort
    size_in_int_range
  have hbody : pam_sm_open_session L pamh flags argv =
      assign_step L (parse_options pamh false false argv).pamh
        (is_silent flags)
        (parse_options pamh false false argv).quiet
        (DSBA_NAME_VALUE_PREFIX ++ p ++ "/bus".toList) := by
    rw [open_session_unfold]
    rw [body_assign_unset L _ _ _ _ p (by rw [hpe.1]; exact hx) habs hpass
      (by rw [hpe.1]; exact hcur), hbuf]
  have hset2 : (L.pam_putenv (parse_options pamh false false argv).pamh.env
      (DSBA_NAME_VALUE_PREFIX ++ p ++ "/bus".toList)).1 = PAM_SUCCESS := by
    rw [hpe.1]; exact hset
  have hcalls := assign_step_putenv_calls L (parse_options pamh false false argv).pamh
    (is_silent flags) (parse_options pamh false false argv).quiet
    (DSBA_NAME_VALUE_PREFIX ++ p ++ "/bus".toList)
  have hst := (assign_step_status L (parse_options pamh false false argv).pamh
    (is_silent flags) (parse_options pamh false false argv).quiet
    (DSBA_NAME_VALUE_PREFIX ++ p ++ "/bus".toList)).1 hset2
  rw [hbody]
  refine ⟨hst.1, ?_, ?_⟩
  · rw [hcalls.1, hpe.2]; rfl
  · rw [hcalls.2, hpe.1]
    exact hbinds pamh.env "DBUS_SESSION_BUS_ADDRESS".toList
      ("unix:path=".toList ++ p ++ "/bus".toList) (by decide) hset

/-- Witness of C1 at XDG_RUNTIME_DIR=/run/user/1000 over the reference store. -/
theorem C1_assign_when_unset_witness :
    SetBinds (refLib PAM_SUCCESS) ∧
    "/run/user/1000".toList.length < PATH_MAX - (35 + 4) ∧
    (pam_sm_open_session (refLib PAM_SUCCESS)
      (fresh (env_of [("XDG_RUNTIME_DIR".toList, "/run/user/1000".toList)])) 0 []).status
        = PAM_SUCCESS ∧
    (pam_sm_open_session (refLib PAM_SUCCESS)
      (fresh (env_of [("XDG_RUNTIME_DIR".toList, "/run/user/1000".toList)])) 0
        []).pamh.putenv_calls
        = ["DBUS_SESSION_BUS_ADDRESS=unix:path=/run/user/1000/bus".toList] ∧
    (pam_sm_open_session (refLib PAM_SUCCESS)
      (fresh (env_of [("XDG_RUNTIME_DIR".toList, "/run/user/1000".toList)])) 0
        []).pamh.env "DBUS_SESSION_BUS_ADDRESS".toList
        = some "unix:path=/run/user/1000/bus".toList :=
  ⟨refLib_setBinds PAM_SUCCESS, by decide,
    C1_assign_when_unset (refLib PAM_SUCCESS)
      (fresh (env_of [("XDG_RUNTIME_DIR".toList, "/run/user/1000".toList)])) 0 []
      "/run/user/1000".toList (refLib_setBinds PAM_SUCCESS) rfl rfl (by decide) (Or.inl rfl)
      rfl⟩

theorem take_entry (value : CStr) :
    List.take 4130 ("DBUS_SESSION_BUS_ADDRESS".toList ++ '=' :: value) =
      "DBUS_SESSION_BUS_ADDRESS".toList ++ '=' :: List.take 4105 value :=
  rfl

theorem huge_dir_length : huge_dir.length = 2147483609 := by
  unfold huge_dir
  rw [List.length_cons, List.length_replicate]

theorem huge_entry_length :
    (DSBA_NAME_VALUE_PREFIX ++ huge_dir ++ "/bus".toList).length = INT_MAX + 1 := by
  rw [dsba_entry_length, huge_dir_length]
  rfl

/-- The buffer after the failed call for `huge_dir`, over the reference library. -/
theorem huge_dir_buffer :
    (snprintf (DSBA_NAME_VALUE_PREFIX ++ (refLib PAM_SUCCESS).snprintf_failed huge_dir)
      (35 + PATH_MAX) (DSBA_NAME_VALUE_PREFIX ++ huge_dir ++ "/bus".toList)).1
      = (DSBA_NAME_VALUE_PREFIX ++ huge_dir ++ "/bus".toList).take 4130 := by
  have hover : ¬ (DSBA_NAME_VALUE_PREFIX ++ huge_dir ++ "/bus".toList).length ≤ INT_MAX := by
    rw [huge_entry_length]
    omega
  have hl : huge_dir.length ≤ INT_MAX := by
    rw [huge_dir_length]
    decide
  rw [snprintf_left _ _ _ hover, refLib_snprintf_failed PAM_SUCCESS huge_dir hl,
    List.append_assoc]
  rfl

/-- C2 (the code departs from the claim): with XDG_RUNTIME_DIR set to `huge_dir` the
formatted entry needs `INT_MAX + 1` bytes, `snprintf` reports a negative value, the test
of line 69-70 does not fire, and the hook hands `pam_putenv` the first 4130 bytes of the
entry and returns PAM_SUCCESS. -/
theorem C2_truncated_entry_written :
    ("DBUS_SESSION_BUS_ADDRESS=unix:path=".toList ++ huge_dir ++ "/bus".toList).length
      = INT_MAX + 1 ∧
    (pam_sm_open_session (refLib PAM_SUCCESS)
      (fresh (env_of [("XDG_RUNTIME_DIR".toList, huge_dir)])) 0 []).pamh.putenv_calls
      = [("DBUS_SESSION_BUS_ADDRESS=unix:path=".toList ++ huge_dir ++ "/bus".toList).take 4130] ∧
    ("DBUS_SESSION_BUS_ADDRESS=unix:path=".toList ++ huge_dir ++ "/bus".toList).take 4130
      ≠ "DBUS_SESSION_BUS_ADDRESS=unix:path=".toList ++ huge_dir ++ "/bus".toList ∧
    (pam_sm_open_session (refLib PAM_SUCCESS)
      (fresh (env_of [("XDG_RUNTIME_DIR".toList, huge_dir)])) 0 []).status = PAM_SUCCESS := by
  have hlen : (DSBA_NAME_VALUE_PREFIX ++ huge_dir ++ "/bus".toList).length = INT_MAX + 1 := by
    rw [dsba_entry_length, huge_dir_length]
    rfl
  have hpass : ¬ (snprintf (DSBA_NAME_VALUE_PREFIX ++ (refLib PAM_SUCCESS).snprintf_failed huge_dir)
      (35 + PATH_MAX)
      (DSBA_NAME_VALUE_PREFIX ++ huge_dir ++ "/bus".toList)).2 ≥ ((35 + PATH_MAX : Nat) : Int) := by
    rw [length_check_iff, hlen]
    omega
  have hbody : pam_sm_open_session (refLib PAM_SUCCESS)
      (fresh (env_of [("XDG_RUNTIME_DIR".toList, huge_dir)])) 0 [] =
      assign_step (refLib PAM_SUCCESS) (fresh (env_of [("XDG_RUNTIME_DIR".toList, huge_dir)]))
        false false
        ((DSBA_NAME_VALUE_PREFIX ++ huge_dir ++ "/bus".toList).take 4130) :=
    by
    have hs : is_silent 0 = false := by decide
    have hb := body_assign_unset (refLib PAM_SUCCESS)
      (fresh (env_of [("XDG_RUNTIME_DIR".toList, huge_dir)])) false false false huge_dir
      rfl rfl hpass (Or.inl rfl)
    rw [huge_dir_buffer] at hb
    rw [open_session_unfold, hs]
    exact hb
  have hput : ((refLib PAM_SUCCESS).pam_putenv
      (fresh (env_of [("XDG_RUNTIME_DIR".toList, huge_dir)])).env
      ((DSBA_NAME_VALUE_PREFIX ++ huge_dir ++ "/bus".toList).take 4130)).1 = PAM_SUCCESS := by
    have e : (DSBA_NAME_VALUE_PREFIX ++ huge_dir ++ "/bus".toList).take 4130 =
        "DBUS_SESSION_BUS_ADDRESS".toList ++
          '=' :: List.take 4105 ("unix:path=".toList ++ huge_dir ++ "/bus".toList) :=
      take_entry _
    rw [e, refLib_putenv_binds _ _ _ (by decide) (by decide)]
  refine ⟨hlen, ?_, ?_, ?_⟩
  · rw [hbody, (assign_step_putenv_calls _ _ _ _ _).1]
    rfl
  · intro h
    have h2 := congrArg List.length h
    rw [List.length_take] at h2
    have h3 : ("DBUS_SESSION_BUS_ADDRESS=unix:path=".toList ++ huge_dir ++ "/bus".toList).length
        = INT_MAX + 1 := hlen
    rw [h3] at h2
    have : INT_MAX = 2147483647 := rfl
    omega
  · rw [hbody]
    exact ((assign_step_status _ _ _ _ _).1 hput).1

theorem unknown_option_entries_eq_nil (argv : List CStr)
    (h : ∀ a ∈ argv, a = "quiet".toList ∨ a = "override".toList) :
    unknown_option_entries argv = [] := by
  induction argv with
  | nil => rfl
  | cons a as ih =>
    rw [unknown_option_entries_cons_known a as (h a (List.mem_cons_self _ _))]
    exact ih (fun b hb => h b (List.mem_cons_of_mem _ hb))

/-- C3: when XDG_RUNTIME_DIR is absent, empty, or does not start with a slash, the hook
returns PAM_SESSION_ERR whatever the arguments, the flags and the existing
DBUS_SESSION_BUS_ADDRESS; it makes no write and leaves the store as it was; after the
entries for unknown options it logs one error-level entry unless PAM_SILENT is set, so
when every token is recognized it logs exactly that entry, or nothing when silent. -/
theorem C3_input_error {σ : Type} (L : PamLib σ) (pamh : pam_handle_t σ) (flags : Int)
    (argv : List CStr)
    (hx : L.pam_getenv pamh.env "XDG_RUNTIME_DIR".toList = none ∨
      L.pam_getenv pamh.env "XDG_RUNTIME_DIR".toList = some [] ∨
      ∃ p, L.pam_getenv pamh.env "XDG_RUNTIME_DIR".toList = some p ∧ p.head? ≠ some '/') :
    (pam_sm_open_session L pamh flags argv).status = PAM_SESSION_ERR ∧
    (pam_sm_open_session L pamh flags argv).pamh.putenv_calls = pamh.putenv_calls ∧
    (pam_sm_open_session L pamh flags argv).pamh.env = pamh.env ∧
    emitted pamh (pam_sm_open_session L pamh flags argv) =
      unknown_option_entries argv ++
        (if is_silent flags then []
         else [⟨LOG_ERR, "Failed to get value of XDG_RUNTIME_DIR or is invalid".toList⟩]) ∧
    ((∀ a ∈ argv, a = "quiet".toList ∨ a = "override".toList) →
      emitted pamh (pam_sm_open_session L pamh flags argv) =
        if is_silent flags then []
        else [⟨LOG_ERR, "Failed to get value of XDG_RUNTIME_DIR or is invalid".toList⟩]) := by
  have hpe := parse_options_env pamh false false argv
  have hps := parse_options_syslog pamh false false argv
  have hx2 : ∀ p, L.pam_getenv (parse_options pamh false false argv).pamh.env
      "XDG_RUNTIME_DIR".toList = some p → p.head? ≠ some '/' := by
    intro p hp
    rw [hpe.1] at hp
    rcases hx with h | h | ⟨p2, h, hh⟩
    · rw [h] at hp; cases hp
    · rw [h] at hp
      cases hp
      exact fun h => Option.noConfusion h
    · rw [h] at hp
      cases hp
      exact hh
  have hbody : pam_sm_open_session L pamh flags argv =
      input_error (parse_options pamh false false argv).pamh
        (is_silent flags) := by
    rw [open_session_unfold]
    exact body_input_error L _ _ _ _ hx2
  have hlog : emitted pamh (pam_sm_open_session L pamh flags argv) =
      unknown_option_entries argv ++
        (if is_silent flags then []
         else [⟨LOG_ERR, "Failed to get value of XDG_RUNTIME_DIR or is invalid".toList⟩]) := by
    rw [hbody]
    unfold emitted input_error
    cases is_silent flags
    · simp only [Bool.not_false, if_true, pam_syslog, hps, List.append_assoc, List.drop_left,
        Bool.false_eq_true, if_false]
    · simp only [Bool.not_true, Bool.false_eq_true, if_false, hps, List.drop_left, if_true,
        List.append_nil]
  refine ⟨?_, ?_, ?_, hlog, ?_⟩
  · rw [hbody]; rfl
  · rw [hbody]
    unfold input_error
    cases (is_silent flags) <;> simp [pam_syslog, hpe.2]
  · rw [hbody]
    unfold input_error
    cases (is_silent flags) <;> simp [pam_syslog, hpe.1]
  · intro hall
    rw [hlog, unknown_option_entries_eq_nil argv hall, List.nil_append]

/-- Witness of C3: XDG_RUNTIME_DIR unset, not silent, the option `quiet`. -/
theorem C3_input_error_witness :
    (pam_sm_open_session (refLib PAM_SUCCESS) (fresh (env_of [])) 0 ["quiet".toList]).status
      = PAM_SESSION_ERR ∧
    (pam_sm_open_session (refLib PAM_SUCCESS) (fresh (env_of [])) 0
      ["quiet".toList]).pamh.putenv_calls = [] ∧
    emitted (fresh (env_of [])) (pam_sm_open_session (refLib PAM_SUCCESS) (fresh (env_of [])) 0
      ["quiet".toList]) =
      [⟨LOG_ERR, "Failed to get value of XDG_RUNTIME_DIR or is invalid".toList⟩] :=
  have h := C3_input_error (refLib PAM_SUCCESS) (fresh (env_of [])) 0 ["quiet".toList]
    (Or.inl rfl)
  ⟨h.1, h.2.1, h.2.2.2.2 (by decide)⟩

/-- The buffer after line 69, whether the call succeeded or failed: the name part, then
the first bytes of `unix:path=` followed by the rest of the complete text (call
succeeded) or by what the library left (call failed). -/
theorem buffer_eq (tail p : CStr) :
    (snprintf (DSBA_NAME_VALUE_PREFIX ++ tail) (35 + PATH_MAX)
      (DSBA_NAME_VALUE_PREFIX ++ p ++ "/bus".toList)).1 =
      "DBUS_SESSION_BUS_ADDRESS".toList ++ '=' :: List.take 4105 ("unix:path=".toList ++
        (if (DSBA_NAME_VALUE_PREFIX ++ p ++ "/bus".toList).length ≤ INT_MAX
          then p ++ "/bus".toList else tail)) := by
  by_cases h : (DSBA_NAME_VALUE_PREFIX ++ p ++ "/bus".toList).length ≤ INT_MAX
  · rw [snprintf_stored _ _ _ h, if_pos h, List.append_assoc]
    rfl
  · rw [snprintf_left _ _ _ h, if_neg h]
    rfl

/-- The slice `&dsba_name_value[DSBA_VALUE_OFFSET]` in both cases. -/
theorem buffer_drop (tail p : CStr) :
    (snprintf (DSBA_NAME_VALUE_PREFIX ++ tail) (35 + PATH_MAX)
      (DSBA_NAME_VALUE_PREFIX ++ p ++ "/bus".toList)).1.drop DSBA_VALUE_OFFSET =
      List.take 4105 ("unix:path=".toList ++
        (if (DSBA_NAME_VALUE_PREFIX ++ p ++ "/bus".toList).length ≤ INT_MAX
          then p ++ "/bus".toList else tail)) := by
  rw [buffer_eq]
  rfl

theorem buffer_drop_ne_nil (tail p : CStr) :
    (snprintf (DSBA_NAME_VALUE_PREFIX ++ tail) (35 + PATH_MAX)
      (DSBA_NAME_VALUE_PREFIX ++ p ++ "/bus".toList)).1.drop DSBA_VALUE_OFFSET ≠ [] := by
  rw [buffer_drop]
  exact fun h => List.noConfusion h

/-- The slice `&dsba_name_value[DSBA_VALUE_OFFSET]` of the formatted buffer after a
successful call. -/
theorem buffer_slice (tail p : CStr)
    (hrep : (DSBA_NAME_VALUE_PREFIX ++ p ++ "/bus".toList).length ≤ INT_MAX) :
    (snprintf (DSBA_NAME_VALUE_PREFIX ++ tail) (35 + PATH_MAX)
      (DSBA_NAME_VALUE_PREFIX ++ p ++ "/bus".toList)).1.drop DSBA_VALUE_OFFSET
      = ("unix:path=".toList ++ p ++ "/bus".toList).take 4105 := by
  rw [buffer_drop, if_pos hrep, ← List.append_assoc]

/-- An entry shorter than `35 + PATH_MAX` passes the test of line 69-70. -/
theorem passes_of_short (tail p : CStr)
    (hfit : (DSBA_NAME_VALUE_PREFIX ++ p ++ "/bus".toList).length < 35 + PATH_MAX) :
    ¬ (snprintf (DSBA_NAME_VALUE_PREFIX ++ tail) (35 + PATH_MAX)
      (DSBA_NAME_VALUE_PREFIX ++ p ++ "/bus".toList)).2 ≥ ((35 + PATH_MAX : Nat) : Int) := by
  rw [length_check_iff]
  omega

theorem representable_of_short (p : CStr)
    (hfit : (DSBA_NAME_VALUE_PREFIX ++ p ++ "/bus".toList).length < 35 + PATH_MAX) :
    (DSBA_NAME_VALUE_PREFIX ++ p ++ "/bus".toList).length ≤ INT_MAX := by
  have := size_in_int_range
  omega

/-- The already-correct exit is taken whenever the comparison of line 80-81 ends
equal. -/
theorem accepted_of_compare {σ : Type} (L : PamLib σ) (pamh : pam_handle_t σ) (flags : Int)
    (argv : List CStr) (p c : CStr)
    (hx : L.pam_getenv pamh.env "XDG_RUNTIME_DIR".toList = some p)
    (habs : p.head? = some '/')
    (hlen : ¬ (snprintf (DSBA_NAME_VALUE_PREFIX ++ L.snprintf_failed p) (35 + PATH_MAX)
      (DSBA_NAME_VALUE_PREFIX ++ p ++ "/bus".toList)).2 ≥ ((35 + PATH_MAX : Nat) : Int))
    (hcur : L.pam_getenv pamh.env "DBUS_SESSION_BUS_ADDRESS".toList = some c)
    (hne : c ≠ [])
    (hcmp : strncmp c
      ((snprintf (DSBA_NAME_VALUE_PREFIX ++ L.snprintf_failed p) (35 + PATH_MAX)
        (DSBA_NAME_VALUE_PREFIX ++ p ++ "/bus".toList)).1.drop DSBA_VALUE_OFFSET)
      (PATH_MAX + 1) = 0) :
    (pam_sm_open_session L pamh flags argv).status = PAM_SUCCESS ∧
    (pam_sm_open_session L pamh flags argv).line = 87 ∧
    (pam_sm_open_session L pamh flags argv).pamh.putenv_calls = pamh.putenv_calls ∧
    (pam_sm_open_session L pamh flags argv).pamh.env = pamh.env ∧
    emitted pamh (pam_sm_open_session L pamh flags argv) =
      unknown_option_entries argv ++
        (if !is_silent flags && !decide ("quiet".toList ∈ argv) then
          [⟨LOG_INFO,
            "DBUS_SESSION_BUS_ADDRESS is already set to the correct value: ".toList ++ c⟩]
         else []) := by
  have hb := body_already_correct L ⟨pamh.env, [], []⟩ (is_silent flags)
    (decide ("quiet".toList ∈ argv)) (decide ("override".toList ∈ argv)) p c hx habs hlen hcur
    hne hcmp
  have hf := open_session_frame L pamh flags argv
  rw [hb] at hf
  refine ⟨hf.1, hf.2.1, ?_, ?_, ?_⟩
  · rw [hf.2.2.2.1]
    cases is_silent flags <;> cases decide ("quiet".toList ∈ argv) <;> simp [pam_syslog]
  · rw [hf.2.2.1]
    cases is_silent flags <;> cases decide ("quiet".toList ∈ argv) <;> simp [pam_syslog]
  · rw [hf.2.2.2.2]
    cases is_silent flags <;> cases decide ("quiet".toList ∈ argv) <;> simp [pam_syslog]

/-- The comparison of line 80-81, after a successful call, ends equal exactly when the
existing value and the derived value agree on their first `PATH_MAX + 1` bytes. -/
theorem compare_eq_zero_iff (tail p c : CStr)
    (hrep : (DSBA_NAME_VALUE_PREFIX ++ p ++ "/bus".toList).length ≤ INT_MAX) :
    strncmp c
      ((snprintf (DSBA_NAME_VALUE_PREFIX ++ tail) (35 + PATH_MAX)
        (DSBA_NAME_VALUE_PREFIX ++ p ++ "/bus".toList)).1.drop DSBA_VALUE_OFFSET)
      (PATH_MAX + 1) = 0 ↔
      c.take 4097 = ("unix:path=".toList ++ p ++ "/bus".toList).take 4097 := by
  rw [buffer_slice tail p hrep, strncmp_eq_zero, List.take_take]
  rfl

/-- The comparison of line 80-81, after a successful call, fails exactly when the
existing value and the derived value differ within their first `PATH_MAX + 1` bytes. -/
theorem compare_ne_zero_iff (tail p c : CStr)
    (hrep : (DSBA_NAME_VALUE_PREFIX ++ p ++ "/bus".toList).length ≤ INT_MAX) :
    strncmp c
      ((snprintf (DSBA_NAME_VALUE_PREFIX ++ tail) (35 + PATH_MAX)
        (DSBA_NAME_VALUE_PREFIX ++ p ++ "/bus".toList)).1.drop DSBA_VALUE_OFFSET)
      (PATH_MAX + 1) ≠ 0 ↔
      c.take 4097 ≠ ("unix:path=".toList ++ p ++ "/bus".toList).take 4097 :=
  not_congr (compare_eq_zero_iff tail p c hrep)

/-- For an entry shorter than `35 + PATH_MAX` the already-correct exit is taken as soon
as the existing value agrees with the derived value on their first `PATH_MAX + 1`
bytes. -/
theorem accepted_within_bound {σ : Type} (L : PamLib σ) (pamh : pam_handle_t σ) (flags : Int)
    (argv : List CStr) (p c : CStr)
    (hx : L.pam_getenv pamh.env "XDG_RUNTIME_DIR".toList = some p)
    (habs : p.head? = some '/')
    (hfit : ("DBUS_SESSION_BUS_ADDRESS=unix:path=".toList ++ p ++ "/bus".toList).length
      < 35 + PATH_MAX)
    (hcur : L.pam_getenv pamh.env "DBUS_SESSION_BUS_ADDRESS".toList = some c)
    (hne : c ≠ [])
    (hagree : c.take 4097 = ("unix:path=".toList ++ p ++ "/bus".toList).take 4097) :
    (pam_sm_open_session L pamh flags argv).status = PAM_SUCCESS ∧
    (pam_sm_open_session L pamh flags argv).line = 87 ∧
    (pam_sm_open_session L pamh flags argv).pamh.putenv_calls = pamh.putenv_calls ∧
    (pam_sm_open_session L pamh flags argv).pamh.env = pamh.env ∧
    emitted pamh (pam_sm_open_session L pamh flags argv) =
      unknown_option_entries argv ++
        (if !is_silent flags && !decide ("quiet".toList ∈ argv) then
          [⟨LOG_INFO,
            "DBUS_SESSION_BUS_ADDRESS is already set to the correct value: ".toList ++ c⟩]
         else []) :=
  accepted_of_compare L pamh flags argv p c hx habs (passes_of_short _ p hfit) hcur hne
    ((compare_eq_zero_iff _ p c (representable_of_short p hfit)).2 hagree)

/-- A conflict within the compared bytes, without `override`, is rejected: the part of
C4 the code keeps. -/
theorem conflict_rejected_within_bound {σ : Type} (L : PamLib σ) (pamh : pam_handle_t σ)
    (flags : Int) (argv : List CStr) (p c : CStr)
    (hx : L.pam_getenv pamh.env "XDG_RUNTIME_DIR".toList = some p)
    (habs : p.head? = some '/')
    (hfit : ("DBUS_SESSION_BUS_ADDRESS=unix:path=".toList ++ p ++ "/bus".toList).length
      < 35 + PATH_MAX)
    (hcur : L.pam_getenv pamh.env "DBUS_SESSION_BUS_ADDRESS".toList = some c)
    (hne : c ≠ [])
    (hdiff : c.take 4097 ≠ ("unix:path=".toList ++ p ++ "/bus".toList).take 4097)
    (hov : "override".toList ∉ argv) :
    (pam_sm_open_session L pamh flags argv).status = PAM_SESSION_ERR ∧
    (pam_sm_open_session L pamh flags argv).line = 98 ∧
    (pam_sm_open_session L pamh flags argv).pamh.putenv_calls = pamh.putenv_calls ∧
    (pam_sm_open_session L pamh flags argv).pamh.env = pamh.env ∧
    emitted pamh (pam_sm_open_session L pamh flags argv) =
      unknown_option_entries argv ++
        (if is_silent flags then []
         else [⟨LOG_ERR,
           "DBUS_SESSION_BUS_ADDRESS is already set to a different value: ".toList ++ c⟩]) := by
  have hlen := passes_of_short (L.snprintf_failed p) p hfit
  have hcmp := (compare_ne_zero_iff (L.snprintf_failed p) p c
    (representable_of_short p hfit)).2 hdiff
  have hf := open_session_frame L pamh flags argv
  rw [decide_eq_false hov, body_reject L ⟨pamh.env, [], []⟩ (is_silent flags)
    (decide ("quiet".toList ∈ argv)) p c hx habs hlen hcur hne hcmp] at hf
  refine ⟨hf.1, hf.2.1, ?_, ?_, ?_⟩
  · rw [hf.2.2.2.1]
    cases is_silent flags <;> simp [pam_syslog]
  · rw [hf.2.2.1]
    cases is_silent flags <;> simp [pam_syslog]
  · rw [hf.2.2.2.2]
    cases is_silent flags <;> simp [pam_syslog]

/-- A conflict within the compared bytes, with `override` and a successful set, is
overwritten: the part of C6 the code keeps. -/
theorem conflict_overridden_within_bound {σ : Type} (L : PamLib σ) (pamh : pam_handle_t σ)
    (flags : Int) (argv : List CStr) (p c : CStr)
    (hx : L.pam_getenv pamh.env "XDG_RUNTIME_DIR".toList = some p)
    (habs : p.head? = some '/')
    (hlen : ("DBUS_SESSION_BUS_ADDRESS=unix:path=".toList ++ p ++ "/bus".toList).length
      < 35 + PATH_MAX)
    (hcur : L.pam_getenv pamh.env "DBUS_SESSION_BUS_ADDRESS".toList = some c)
    (hne : c ≠ [])
    (hdiff : c.take 4097 ≠ ("unix:path=".toList ++ p ++ "/bus".toList).take 4097)
    (hov : "override".toList ∈ argv)
    (hset : (L.pam_putenv pamh.env
      ("DBUS_SESSION_BUS_ADDRESS=unix:path=".toList ++ p ++ "/bus".toList)).1 = PAM_SUCCESS) :
    (pam_sm_open_session L pamh flags argv).status = PAM_SUCCESS ∧
    (pam_sm_open_session L pamh flags argv).pamh.putenv_calls = pamh.putenv_calls ++
      ["DBUS_SESSION_BUS_ADDRESS=unix:path=".toList ++ p ++ "/bus".toList] ∧
    (pam_sm_open_session L pamh flags argv).pamh.env = (L.pam_putenv pamh.env
      ("DBUS_SESSION_BUS_ADDRESS=unix:path=".toList ++ p ++ "/bus".toList)).2 ∧
    emitted pamh (pam_sm_open_session L pamh flags argv) =
      unknown_option_entries argv ++
        (if !is_silent flags && !decide ("quiet".toList ∈ argv) then
          [⟨LOG_INFO, "Overriding current DBUS_SESSION_BUS_ADDRESS value: ".toList ++ c⟩,
           ⟨LOG_INFO, "Assigning ".toList
             ++ ("DBUS_SESSION_BUS_ADDRESS=unix:path=".toList ++ p ++ "/bus".toList)⟩]
         else []) := by
  have hpass : ¬ (snprintf (DSBA_NAME_VALUE_PREFIX ++ L.snprintf_failed p)
      (35 + PATH_MAX) (DSBA_NAME_VALUE_PREFIX ++ p ++ "/bus".toList)).2
      ≥ ((35 + PATH_MAX : Nat) : Int) := by
    rw [length_check_iff]
    have h2 : (DSBA_NAME_VALUE_PREFIX ++ p ++ "/bus".toList).length < 35 + PATH_MAX := hlen
    omega
  have hbuf : (snprintf (DSBA_NAME_VALUE_PREFIX ++ L.snprintf_failed p)
      (35 + PATH_MAX) (DSBA_NAME_VALUE_PREFIX ++ p ++ "/bus".toList)).1
      = DSBA_NAME_VALUE_PREFIX ++ p ++ "/bus".toList := snprintf_fits _ _ _ hlen size_in_int_range
  have hcmp := (compare_ne_zero_iff (L.snprintf_failed p) p c
    (representable_of_short p hlen)).2 hdiff
  have hf := open_session_frame L pamh flags argv
  rw [decide_eq_true hov, body_override L ⟨pamh.env, [], []⟩ (is_silent flags)
    (decide ("quiet".toList ∈ argv)) p c hx habs hpass hcur hne hcmp, hbuf] at hf
  have henv : (if !is_silent flags && !decide ("quiet".toList ∈ argv) then
      pam_syslog (⟨pamh.env, [], []⟩ : pam_handle_t σ) LOG_INFO
        ("Overriding current DBUS_SESSION_BUS_ADDRESS value: ".toList ++ c)
      else ⟨pamh.env, [], []⟩).env = pamh.env := by
    cases is_silent flags <;> cases decide ("quiet".toList ∈ argv) <;> rfl
  have hset2 : (L.pam_putenv (if !is_silent flags && !decide ("quiet".toList ∈ argv) then
      pam_syslog (⟨pamh.env, [], []⟩ : pam_handle_t σ) LOG_INFO
        ("Overriding current DBUS_SESSION_BUS_ADDRESS value: ".toList ++ c)
      else ⟨pamh.env, [], []⟩).env (DSBA_NAME_VALUE_PREFIX ++ p ++ "/bus".toList)).1
      = PAM_SUCCESS := by
    rw [henv]; exact hset
  rw [((assign_step_status L _ _ _ _).1 hset2).1, (assign_step_putenv_calls L _ _ _ _).1,
    (assign_step_putenv_calls L _ _ _ _).2, assign_step_syslog, henv] at hf
  refine ⟨hf.1, ?_, hf.2.2.1, ?_⟩
  · rw [hf.2.2.2.1]
    cases is_silent flags <;> cases decide ("quiet".toList ∈ argv) <;> simp [pam_syslog] <;> rfl
  · rw [hf.2.2.2.2]
    have hs : ¬ ((L.pam_putenv pamh.env (DSBA_NAME_VALUE_PREFIX ++ p ++ "/bus".toList)).1
        ≠ PAM_SUCCESS ∧ is_silent flags = false) := fun h => h.1 hset
    rw [if_neg hs]
    cases is_silent flags <;> cases decide ("quiet".toList ∈ argv) <;> simp [pam_syslog]
    rfl

theorem long_dir_length : long_dir.length = 4091 := by
  unfold long_dir
  rw [List.length_cons, List.length_replicate]

theorem long_entry_short :
    ("DBUS_SESSION_BUS_ADDRESS=unix:path=".toList ++ long_dir ++ "/bus".toList).length
      < 35 + PATH_MAX := by
  have h : ("DBUS_SESSION_BUS_ADDRESS=unix:path=".toList ++ long_dir ++ "/bus".toList).length
      = long_dir.length + 39 := dsba_entry_length long_dir
  rw [h, long_dir_length]
  decide

theorem long_dir_passes :
    ¬ (snprintf (DSBA_NAME_VALUE_PREFIX ++ (refLib PAM_SUCCESS).snprintf_failed long_dir)
        (35 + PATH_MAX)
      ("DBUS_SESSION_BUS_ADDRESS=unix:path=".toList ++ long_dir ++ "/bus".toList)).2
        ≥ ((35 + PATH_MAX : Nat) : Int) := by
  rw [length_check_iff]
  have := long_entry_short
  omega

theorem near_value_length : near_value.length = 4097 := by
  unfold near_value
  rw [List.length_take, List.length_append, List.length_append, long_dir_length]
  rfl

theorem long_value_length :
    ("unix:path=".toList ++ long_dir ++ "/bus".toList).length = 4105 := by
  rw [List.length_append, List.length_append, long_dir_length]
  rfl

theorem near_value_ne :
    near_value ≠ "unix:path=".toList ++ long_dir ++ "/bus".toList ∧ near_value ≠ [] := by
  constructor
  · intro h
    have h3 : 4097 = 4105 :=
      near_value_length.symm.trans ((congrArg List.length h).trans long_value_length)
    exact absurd h3 (by decide)
  · intro h
    have h3 : 4097 = 0 := near_value_length.symm.trans (congrArg List.length h)
    exact absurd h3 (by decide)

theorem near_value_agrees :
    near_value.take 4097 = ("unix:path=".toList ++ long_dir ++ "/bus".toList).take 4097 := by
  unfold near_value
  rw [List.take_take]
  rfl

/-- C4 (the code departs from the claim): with XDG_RUNTIME_DIR = `long_dir` (4091
bytes, passes both checks), the existing value `near_value` is non-empty and differs from
the derived value (4097 bytes against 4105), and no `override` is given; the comparison
of line 80-81 stops after `PATH_MAX + 1` bytes, so the hook takes the already-correct
exit: it returns PAM_SUCCESS from line 87 and logs the informational entry, where the
claim has PAM_SESSION_ERR and an error entry. -/
theorem C4_conflict_taken_for_correct :
    long_dir.head? = some '/' ∧
    ("DBUS_SESSION_BUS_ADDRESS=unix:path=".toList ++ long_dir ++ "/bus".toList).length
      < 35 + PATH_MAX ∧
    near_value ≠ "unix:path=".toList ++ long_dir ++ "/bus".toList ∧
    near_value ≠ [] ∧
    (pam_sm_open_session (refLib PAM_SUCCESS)
      (fresh (env_of [("XDG_RUNTIME_DIR".toList, long_dir),
        ("DBUS_SESSION_BUS_ADDRESS".toList, near_value)])) 0 []).status = PAM_SUCCESS ∧
    (pam_sm_open_session (refLib PAM_SUCCESS)
      (fresh (env_of [("XDG_RUNTIME_DIR".toList, long_dir),
        ("DBUS_SESSION_BUS_ADDRESS".toList, near_value)])) 0 []).line = 87 ∧
    (pam_sm_open_session (refLib PAM_SUCCESS)
      (fresh (env_of [("XDG_RUNTIME_DIR".toList, long_dir),
        ("DBUS_SESSION_BUS_ADDRESS".toList, near_value)])) 0 []).pamh.syslog =
      [⟨LOG_INFO,
        "DBUS_SESSION_BUS_ADDRESS is already set to the correct value: ".toList
          ++ near_value⟩] := by
  have h := accepted_within_bound (refLib PAM_SUCCESS)
    (fresh (env_of [("XDG_RUNTIME_DIR".toList, long_dir),
      ("DBUS_SESSION_BUS_ADDRESS".toList, near_value)])) 0 [] long_dir near_value
    rfl rfl long_entry_short rfl near_value_ne.2 near_value_agrees
  exact ⟨rfl, long_entry_short, near_value_ne.1, near_value_ne.2, h.1, h.2.1, h.2.2.2.2⟩

/-- C6 (the code departs from the claim): the same store as for C4, now with the
argument `override`; the existing value differs from the derived one, yet the hook takes
the already-correct exit: nothing is written, the store still holds `near_value`, and the
entry logged is the "already set to the correct value" one, not "Overriding". -/
theorem C6_override_not_applied :
    long_dir.head? = some '/' ∧
    ("DBUS_SESSION_BUS_ADDRESS=unix:path=".toList ++ long_dir ++ "/bus".toList).length
      < 35 + PATH_MAX ∧
    near_value ≠ "unix:path=".toList ++ long_dir ++ "/bus".toList ∧
    near_value ≠ [] ∧
    (pam_sm_open_session (refLib PAM_SUCCESS)
      (fresh (env_of [("XDG_RUNTIME_DIR".toList, long_dir),
        ("DBUS_SESSION_BUS_ADDRESS".toList, near_value)])) 0
        ["override".toList]).pamh.putenv_calls = [] ∧
    (pam_sm_open_session (refLib PAM_SUCCESS)
      (fresh (env_of [("XDG_RUNTIME_DIR".toList, long_dir),
        ("DBUS_SESSION_BUS_ADDRESS".toList, near_value)])) 0
        ["override".toList]).pamh.env "DBUS_SESSION_BUS_ADDRESS".toList = some near_value ∧
    (pam_sm_open_session (refLib PAM_SUCCESS)
      (fresh (env_of [("XDG_RUNTIME_DIR".toList, long_dir),
        ("DBUS_SESSION_BUS_ADDRESS".toList, near_value)])) 0
        ["override".toList]).pamh.syslog =
      [⟨LOG_INFO,
        "DBUS_SESSION_BUS_ADDRESS is already set to the correct value: ".toList
          ++ near_value⟩] := by
  have h := accepted_within_bound (refLib PAM_SUCCESS)
    (fresh (env_of [("XDG_RUNTIME_DIR".toList, long_dir),
      ("DBUS_SESSION_BUS_ADDRESS".toList, near_value)])) 0 ["override".toList] long_dir
    near_value rfl rfl long_entry_short rfl near_value_ne.2 near_value_agrees
  refine ⟨rfl, long_entry_short, near_value_ne.1, near_value_ne.2, h.2.2.1, ?_, h.2.2.2.2⟩
  rw [h.2.2.2.1]
  rfl

theorem assign_step_line {σ : Type} (L : PamLib σ) (pamh : pam_handle_t σ) (s q : Bool)
    (buf : CStr) :
    (assign_step L pamh s q buf).line = 110 ∨ (assign_step L pamh s q buf).line = 113 := by
  by_cases hr : (L.pam_putenv pamh.env buf).1 = PAM_SUCCESS
  · exact Or.inr ((assign_step_status L pamh s q buf).1 hr).2
  · exact Or.inl ((assign_step_status L pamh s q buf).2 hr).2

/-- Once both checks are passed the body leaves by line 87, 98, 110 or 113. -/
theorem body_line_of_pass {σ : Type} (L : PamLib σ) (pamh : pam_handle_t σ) (s q o : Bool)
    (p : CStr) (hx : L.pam_getenv pamh.env "XDG_RUNTIME_DIR".toList = some p)
    (habs : p.head? = some '/')
    (hlen : ¬ (snprintf (DSBA_NAME_VALUE_PREFIX ++ L.snprintf_failed p)
        (35 + PATH_MAX) (DSBA_NAME_VALUE_PREFIX ++ p ++ "/bus".toList)).2
      ≥ ((35 + PATH_MAX : Nat) : Int)) :
    (open_session_body L pamh s q o).line = 87 ∨ (open_session_body L pamh s q o).line = 98 ∨
    (open_session_body L pamh s q o).line = 110 ∨
    (open_session_body L pamh s q o).line = 113 := by
  cases hcur : L.pam_getenv pamh.env "DBUS_SESSION_BUS_ADDRESS".toList with
  | none =>
    rw [body_assign_unset L pamh s q o p hx habs hlen (Or.inl hcur)]
    exact Or.inr (Or.inr (assign_step_line L pamh s q _))
  | some c =>
    by_cases hc : c = []
    · subst hc
      rw [body_assign_unset L pamh s q o p hx habs hlen (Or.inr hcur)]
      exact Or.inr (Or.inr (assign_step_line L pamh s q _))
    · by_cases hcmp : strncmp c
        ((snprintf (DSBA_NAME_VALUE_PREFIX ++ L.snprintf_failed p)
            (35 + PATH_MAX) (DSBA_NAME_VALUE_PREFIX ++ p ++ "/bus".toList)).1.drop
          DSBA_VALUE_OFFSET) (PATH_MAX + 1) = 0
      · rw [body_already_correct L pamh s q o p c hx habs hlen hcur hc hcmp]
        exact Or.inl rfl
      · cases o with
        | false =>
          rw [body_reject L pamh s q p c hx habs hlen hcur hc hcmp]
          exact Or.inr (Or.inl rfl)
        | true =>
          rw [body_override L pamh s q p c hx habs hlen hcur hc hcmp]
          exact Or.inr (Or.inr (assign_step_line L _ s q _))

theorem over_dir_length : over_dir.length = 4092 := by
  unfold over_dir
  rw [List.length_cons, List.length_replicate]

theorem over_entry_length :
    ("DBUS_SESSION_BUS_ADDRESS=unix:path=".toList ++ over_dir ++ "/bus".toList).length
      = 4131 := by
  have h : ("DBUS_SESSION_BUS_ADDRESS=unix:path=".toList ++ over_dir ++ "/bus".toList).length
      = over_dir.length + 39 := dsba_entry_length over_dir
  rw [h, over_dir_length]

/-- C7 as stated fails: with XDG_RUNTIME_DIR = `over_dir` (4092 bytes) the formatted
entry has 4131 bytes, fewer than 35 + 4 + PATH_MAX = 4135, and the hook fails with the
length error (PAM_SESSION_ERR returned at line 74). -/
theorem C7_counterexample :
    over_dir.head? = some '/' ∧
    (pam_sm_open_session (refLib PAM_SUCCESS)
      (fresh (env_of [("XDG_RUNTIME_DIR".toList, over_dir)])) 0 []).line = 74 ∧
    (pam_sm_open_session (refLib PAM_SUCCESS)
      (fresh (env_of [("XDG_RUNTIME_DIR".toList, over_dir)])) 0 []).status = PAM_SESSION_ERR ∧
    ¬ ("DBUS_SESSION_BUS_ADDRESS=unix:path=".toList ++ over_dir ++ "/bus".toList).length
      ≥ 35 + 4 + PATH_MAX := by
  have hchk : (snprintf (DSBA_NAME_VALUE_PREFIX ++ (refLib PAM_SUCCESS).snprintf_failed over_dir)
      (35 + PATH_MAX)
      (DSBA_NAME_VALUE_PREFIX ++ over_dir ++ "/bus".toList)).2 ≥ ((35 + PATH_MAX : Nat) : Int) := by
    rw [length_check_iff]
    have h : (DSBA_NAME_VALUE_PREFIX ++ over_dir ++ "/bus".toList).length = 4131 :=
      over_entry_length
    rw [h]
    decide
  have hb := body_length_error (refLib PAM_SUCCESS)
    ⟨(fresh (env_of [("XDG_RUNTIME_DIR".toList, over_dir)])).env, [], []⟩ (is_silent 0)
    (decide ("quiet".toList ∈ ([] : List CStr))) (decide ("override".toList ∈ ([] : List CStr)))
    over_dir rfl rfl hchk
  have hf := open_session_frame (refLib PAM_SUCCESS)
    (fresh (env_of [("XDG_RUNTIME_DIR".toList, over_dir)])) 0 []
  rw [hb] at hf
  refine ⟨rfl, hf.2.1, hf.1, ?_⟩
  rw [over_entry_length]
  decide

/-- C7, amended: for an absolute XDG_RUNTIME_DIR value `p` whose formatted entry has a
length representable as an `int`, the hook fails with the length error (line 74,
PAM_SESSION_ERR, nothing written) if and only if the entry
`DBUS_SESSION_BUS_ADDRESS=unix:path=p/bus` has at least 35 + PATH_MAX bytes. -/
theorem C7_length_error_threshold {σ : Type} (L : PamLib σ) (pamh : pam_handle_t σ)
    (flags : Int) (argv : List CStr) (p : CStr)
    (hx : L.pam_getenv pamh.env "XDG_RUNTIME_DIR".toList = some p)
    (habs : p.head? = some '/')
    (hrep : ("DBUS_SESSION_BUS_ADDRESS=unix:path=".toList ++ p ++ "/bus".toList).length
      ≤ INT_MAX) :
    ((pam_sm_open_session L pamh flags argv).line = 74 ↔
      ("DBUS_SESSION_BUS_ADDRESS=unix:path=".toList ++ p ++ "/bus".toList).length
        ≥ 35 + PATH_MAX) ∧
    ((pam_sm_open_session L pamh flags argv).line = 74 →
      (pam_sm_open_session L pamh flags argv).status = PAM_SESSION_ERR ∧
      (pam_sm_open_session L pamh flags argv).pamh.putenv_calls = pamh.putenv_calls) := by
  have hf := open_session_frame L pamh flags argv
  have hiff : (pam_sm_open_session L pamh flags argv).line = 74 ↔
      ("DBUS_SESSION_BUS_ADDRESS=unix:path=".toList ++ p ++ "/bus".toList).length
        ≥ 35 + PATH_MAX := by
    rw [hf.2.1]
    by_cases hchk : (snprintf (DSBA_NAME_VALUE_PREFIX ++ L.snprintf_failed p) (35 + PATH_MAX)
        (DSBA_NAME_VALUE_PREFIX ++ p ++ "/bus".toList)).2 ≥ ((35 + PATH_MAX : Nat) : Int)
    · rw [body_length_error L ⟨pamh.env, [], []⟩ _ _ _ p hx habs hchk]
      exact ⟨fun _ => ((length_check_iff _ _).1 hchk).1, fun _ => rfl⟩
    · have hl := body_line_of_pass L ⟨pamh.env, [], []⟩ (is_silent flags)
        (decide ("quiet".toList ∈ argv)) (decide ("override".toList ∈ argv)) p hx habs hchk
      constructor
      · intro h74
        rw [h74] at hl
        exact absurd hl (by decide)
      · intro hge
        exact absurd ((length_check_iff _ _).2 ⟨hge, hrep⟩) hchk
  refine ⟨hiff, fun h74 => ?_⟩
  have hchk : (snprintf (DSBA_NAME_VALUE_PREFIX ++ L.snprintf_failed p) (35 + PATH_MAX)
      (DSBA_NAME_VALUE_PREFIX ++ p ++ "/bus".toList)).2 ≥ ((35 + PATH_MAX : Nat) : Int) :=
    (length_check_iff _ _).2 ⟨hiff.1 h74, hrep⟩
  have hb := body_length_error L ⟨pamh.env, [], []⟩ (is_silent flags)
    (decide ("quiet".toList ∈ argv)) (decide ("override".toList ∈ argv)) p hx habs hchk
  rw [hb] at hf
  refine ⟨hf.1, ?_⟩
  rw [hf.2.2.2.1]
  cases is_silent flags <;> simp [pam_syslog]

/-- Witness of the amended C7 at XDG_RUNTIME_DIR=/run/user/1000. -/
theorem C7_length_error_threshold_witness :
    ((pam_sm_open_session (refLib PAM_SUCCESS)
      (fresh (env_of [("XDG_RUNTIME_DIR".toList, "/run/user/1000".toList)])) 0 []).line = 74 ↔
      ("DBUS_SESSION_BUS_ADDRESS=unix:path=".toList ++ "/run/user/1000".toList
        ++ "/bus".toList).length ≥ 35 + PATH_MAX) :=
  (C7_length_error_threshold (refLib PAM_SUCCESS)
    (fresh (env_of [("XDG_RUNTIME_DIR".toList, "/run/user/1000".toList)])) 0 []
    "/run/user/1000".toList rfl rfl (by decide)).1

/-- What a run of the body on a fresh handle amounts to: an error exit without a
write, the already-correct exit without a write, or one call of `pam_putenv` whose
status decides between line 113 and line 110. -/
theorem body_summary {σ : Type} (L : PamLib σ) (env : σ) (s q o : Bool) :
    ((open_session_body L ⟨env, [], []⟩ s q o).pamh.putenv_calls = [] ∧
      (open_session_body L ⟨env, [], []⟩ s q o).pamh.env = env ∧
      (open_session_body L ⟨env, [], []⟩ s q o).status = PAM_SESSION_ERR ∧
      ((open_session_body L ⟨env, [], []⟩ s q o).line = 66 ∨
       (open_session_body L ⟨env, [], []⟩ s q o).line = 74 ∨
       (open_session_body L ⟨env, [], []⟩ s q o).line = 98)) ∨
    ((open_session_body L ⟨env, [], []⟩ s q o).pamh.putenv_calls = [] ∧
      (open_session_body L ⟨env, [], []⟩ s q o).pamh.env = env ∧
      (open_session_body L ⟨env, [], []⟩ s q o).status = PAM_SUCCESS ∧
      (open_session_body L ⟨env, [], []⟩ s q o).line = 87) ∨
    (∃ buf pre, (∀ e ∈ pre, e.priority = LOG_INFO) ∧
      (∃ p, L.pam_getenv env "XDG_RUNTIME_DIR".toList = some p ∧
        ¬ (snprintf (DSBA_NAME_VALUE_PREFIX ++ L.snprintf_failed p)
            (35 + PATH_MAX) (DSBA_NAME_VALUE_PREFIX ++ p ++ "/bus".toList)).2
          ≥ ((35 + PATH_MAX : Nat) : Int) ∧
        buf = (snprintf (DSBA_NAME_VALUE_PREFIX ++ L.snprintf_failed p)
            (35 + PATH_MAX) (DSBA_NAME_VALUE_PREFIX ++ p ++ "/bus".toList)).1) ∧
      (open_session_body L ⟨env, [], []⟩ s q o).pamh.putenv_calls = [buf] ∧
      (open_session_body L ⟨env, [], []⟩ s q o).pamh.env = (L.pam_putenv env buf).2 ∧
      (open_session_body L ⟨env, [], []⟩ s q o).pamh.syslog =
        pre ++ (if !s && !q then [⟨LOG_INFO, "Assigning ".toList ++ buf⟩] else [])
          ++ (if (L.pam_putenv env buf).1 ≠ PAM_SUCCESS ∧ s = false then
                [⟨LOG_ERR, "Failed to define DBUS_SESSION_BUS_ADDRESS in env: ".toList
                  ++ L.pam_strerror (L.pam_putenv env buf).1⟩]
              else []) ∧
      (((L.pam_putenv env buf).1 = PAM_SUCCESS ∧
          (open_session_body L ⟨env, [], []⟩ s q o).status = PAM_SUCCESS ∧
          (open_session_body L ⟨env, [], []⟩ s q o).line = 113) ∨
       ((L.pam_putenv env buf).1 ≠ PAM_SUCCESS ∧
          (open_session_body L ⟨env, [], []⟩ s q o).status = PAM_SESSION_ERR ∧
          (open_session_body L ⟨env, [], []⟩ s q o).line = 110))) := by
  rcases body_cases L env s q o with
    h | ⟨msg, h⟩ | ⟨c, h⟩ | ⟨c, h⟩ | ⟨p, pre, hx, hlen, hpre, h⟩
  · rw [h]
    refine Or.inl ⟨?_, ?_, rfl, Or.inl rfl⟩ <;> unfold input_error <;> cases s <;> rfl
  · rw [h]
    refine Or.inl ⟨?_, ?_, rfl, Or.inr (Or.inl rfl)⟩ <;> cases s <;> rfl
  · rw [h]
    refine Or.inr (Or.inl ⟨?_, ?_, rfl, rfl⟩) <;> cases s <;> cases q <;> rfl
  · rw [h]
    refine Or.inl ⟨?_, ?_, rfl, Or.inr (Or.inr rfl)⟩ <;> cases s <;> rfl
  · rw [h]
    refine Or.inr (Or.inr ⟨_, pre, hpre, ⟨p, hx, hlen, rfl⟩, ?_, ?_, ?_, ?_⟩)
    · rw [(assign_step_putenv_calls L _ s q _).1]
      rfl
    · rw [(assign_step_putenv_calls L _ s q _).2]
    · rw [assign_step_syslog]
    · by_cases hr : (L.pam_putenv env
          (snprintf (DSBA_NAME_VALUE_PREFIX ++ L.snprintf_failed p)
              (35 + PATH_MAX) (DSBA_NAME_VALUE_PREFIX ++ p ++ "/bus".toList)).1).1
          = PAM_SUCCESS
      · exact Or.inl ⟨hr, (assign_step_status L ⟨env, pre, []⟩ s q _).1 hr⟩
      · exact Or.inr ⟨hr, (assign_step_status L ⟨env, pre, []⟩ s q _).2 hr⟩

/-- Within the range of `int` nothing shortened is written: when the formatted entry
has a representable length, an entry handed to `pam_putenv` is the whole entry. -/
theorem written_entry_whole {σ : Type} (L : PamLib σ) (pamh : pam_handle_t σ) (flags : Int)
    (argv : List CStr) (p : CStr)
    (hx : L.pam_getenv pamh.env "XDG_RUNTIME_DIR".toList = some p)
    (hrep : ("DBUS_SESSION_BUS_ADDRESS=unix:path=".toList ++ p ++ "/bus".toList).length
      ≤ INT_MAX) :
    (pam_sm_open_session L pamh flags argv).pamh.putenv_calls = pamh.putenv_calls ∨
    (pam_sm_open_session L pamh flags argv).pamh.putenv_calls = pamh.putenv_calls ++
      ["DBUS_SESSION_BUS_ADDRESS=unix:path=".toList ++ p ++ "/bus".toList] := by
  have hf := open_session_frame L pamh flags argv
  rw [hf.2.2.2.1]
  rcases body_summary L pamh.env (is_silent flags) (decide ("quiet".toList ∈ argv))
      (decide ("override".toList ∈ argv)) with
    ⟨hc, _⟩ | ⟨hc, _⟩ | ⟨buf, pre, _, ⟨p2, hx2, hpass, hbuf⟩, hc, _⟩
  · rw [hc, List.append_nil]; exact Or.inl rfl
  · rw [hc, List.append_nil]; exact Or.inl rfl
  · rw [hx] at hx2
    cases hx2
    rw [length_check_iff] at hpass
    have hshort : (DSBA_NAME_VALUE_PREFIX ++ p ++ "/bus".toList).length < 35 + PATH_MAX := by
      have h2 : (DSBA_NAME_VALUE_PREFIX ++ p ++ "/bus".toList).length ≤ INT_MAX := hrep
      omega
    rw [snprintf_fits _ _ _ hshort size_in_int_range] at hbuf
    rw [hc, hbuf]
    exact Or.inr rfl

/-- The three error exits that precede the assign step, by their causes. -/
theorem error_exit_of_cause {σ : Type} (L : PamLib σ) (pamh : pam_handle_t σ) (flags : Int)
    (argv : List CStr)
    (h : InputError L pamh.env ∨ LengthError L pamh.env ∨ RejectedConflict L pamh.env argv) :
    (pam_sm_open_session L pamh flags argv).line = 66 ∨
    (pam_sm_open_session L pamh flags argv).line = 74 ∨
    (pam_sm_open_session L pamh flags argv).line = 98 := by
  have hf := open_session_frame L pamh flags argv
  rw [hf.2.1]
  rcases h with h | ⟨p, hx, habs, hchk⟩ | ⟨p, c, hx, habs, hchk, hcur, hne, hcmp, hov⟩
  · rw [body_input_error L ⟨pamh.env, [], []⟩ _ _ _ h]
    exact Or.inl rfl
  · rw [body_length_error L ⟨pamh.env, [], []⟩ _ _ _ p hx habs hchk]
    exact Or.inr (Or.inl rfl)
  · rw [decide_eq_false hov,
      body_reject L ⟨pamh.env, [], []⟩ _ _ p c hx habs hchk hcur hne hcmp]
    exact Or.inr (Or.inr rfl)

/-- C8: the hook calls the store's set operation at most once per invocation; when it
returns because of an input error, a length error or a rejected conflict (the exits of
lines 66, 74 and 98) it returns PAM_SESSION_ERR without having called the set operation,
and the store is exactly as before; a PAM_SESSION_ERR comes from one of these exits or
from the failed write (line 110); and without a call the store is unchanged. -/
theorem C8_write_at_most_once {σ : Type} (L : PamLib σ) (pamh : pam_handle_t σ) (flags : Int)
    (argv : List CStr) :
    ((pam_sm_open_session L pamh flags argv).pamh.putenv_calls = pamh.putenv_calls ∨
      ∃ entry, (pam_sm_open_session L pamh flags argv).pamh.putenv_calls
        = pamh.putenv_calls ++ [entry]) ∧
    (InputError L pamh.env ∨ LengthError L pamh.env ∨ RejectedConflict L pamh.env argv →
      (pam_sm_open_session L pamh flags argv).line = 66 ∨
      (pam_sm_open_session L pamh flags argv).line = 74 ∨
      (pam_sm_open_session L pamh flags argv).line = 98) ∧
    ((pam_sm_open_session L pamh flags argv).line = 66 ∨
      (pam_sm_open_session L pamh flags argv).line = 74 ∨
      (pam_sm_open_session L pamh flags argv).line = 98 →
        (pam_sm_open_session L pamh flags argv).status = PAM_SESSION_ERR ∧
        (pam_sm_open_session L pamh flags argv).pamh.putenv_calls = pamh.putenv_calls ∧
        (pam_sm_open_session L pamh flags argv).pamh.env = pamh.env) ∧
    ((pam_sm_open_session L pamh flags argv).status = PAM_SESSION_ERR →
      (pam_sm_open_session L pamh flags argv).line = 66 ∨
      (pam_sm_open_session L pamh flags argv).line = 74 ∨
      (pam_sm_open_session L pamh flags argv).line = 98 ∨
      (pam_sm_open_session L pamh flags argv).line = 110) ∧
    ((pam_sm_open_session L pamh flags argv).pamh.putenv_calls = pamh.putenv_calls →
      (pam_sm_open_session L pamh flags argv).pamh.env = pamh.env) := by
  have hf := open_session_frame L pamh flags argv
  refine ⟨?_, error_exit_of_cause L pamh flags argv, ?_⟩
  · rw [hf.2.2.2.1]
    rcases body_summary L pamh.env (is_silent flags) (decide ("quiet".toList ∈ argv))
        (decide ("override".toList ∈ argv)) with
      ⟨hc, _⟩ | ⟨hc, _⟩ | ⟨buf, pre, _, _, hc, _⟩
    · rw [hc, List.append_nil]; exact Or.inl rfl
    · rw [hc, List.append_nil]; exact Or.inl rfl
    · rw [hc]; exact Or.inr ⟨buf, rfl⟩
  rw [hf.1, hf.2.1, hf.2.2.1, hf.2.2.2.1]
  rcases body_summary L pamh.env (is_silent flags) (decide ("quiet".toList ∈ argv))
      (decide ("override".toList ∈ argv)) with
    ⟨hc, he, hs, hl⟩ | ⟨hc, he, hs, hl⟩ | ⟨buf, pre, _, _, hc, he, _, hr⟩
  · rw [hc, he, hs, List.append_nil]
    refine ⟨fun _ => ⟨rfl, rfl, rfl⟩, fun _ => ?_, fun _ => rfl⟩
    rcases hl with h | h | h
    · exact Or.inl h
    · exact Or.inr (Or.inl h)
    · exact Or.inr (Or.inr (Or.inl h))
  · rw [hc, he, hs, hl, List.append_nil]
    refine ⟨fun h => absurd h (by decide), fun h => absurd h (by decide), fun _ => rfl⟩
  · rw [hc, he]
    have hne : pamh.putenv_calls ++ [buf] ≠ pamh.putenv_calls := by
      intro h
      have h2 := congrArg List.length h
      rw [List.length_append, List.length_singleton] at h2
      omega
    rcases hr with ⟨_, hs, hl⟩ | ⟨_, hs, hl⟩
    · rw [hs, hl]
      exact ⟨fun h => absurd h (by decide), fun h => absurd h (by decide),
        fun h => absurd h hne⟩
    · rw [hs, hl]
      exact ⟨fun h => absurd h (by decide),
        fun _ => Or.inr (Or.inr (Or.inr rfl)), fun h => absurd h hne⟩

/-- C9: on every input on which the hook reaches the assign step (it returns from line
110 or 113), exactly one entry is handed to the store's set operation; if that call
reports a status other than PAM_SUCCESS the hook returns PAM_SESSION_ERR, and its
error-level entries are the unknown-option ones followed by exactly one entry carrying
`pam_strerror` of that status when PAM_SILENT is not set, and by none when it is set; if
the call reports PAM_SUCCESS the hook returns PAM_SUCCESS. -/
theorem C9_store_write_failure {σ : Type} (L : PamLib σ) (pamh : pam_handle_t σ)
    (flags : Int) (argv : List CStr)
    (hreach : (pam_sm_open_session L pamh flags argv).line = 110 ∨
      (pam_sm_open_session L pamh flags argv).line = 113) :
    ∃ entry,
      (pam_sm_open_session L pamh flags argv).pamh.putenv_calls
        = pamh.putenv_calls ++ [entry] ∧
      ((L.pam_putenv pamh.env entry).1 = PAM_SUCCESS →
        (pam_sm_open_session L pamh flags argv).status = PAM_SUCCESS) ∧
      ((L.pam_putenv pamh.env entry).1 ≠ PAM_SUCCESS →
        (pam_sm_open_session L pamh flags argv).status = PAM_SESSION_ERR ∧
        (emitted pamh (pam_sm_open_session L pamh flags argv)).filter
            (fun e => decide (e.priority = LOG_ERR)) =
          unknown_option_entries argv ++
            (if is_silent flags then []
             else [⟨LOG_ERR, "Failed to define DBUS_SESSION_BUS_ADDRESS in env: ".toList
               ++ L.pam_strerror (L.pam_putenv pamh.env entry).1⟩])) := by
  have hf := open_session_frame L pamh flags argv
  rw [hf.2.1] at hreach
  rw [hf.1, hf.2.2.2.1, hf.2.2.2.2]
  rcases body_summary L pamh.env (is_silent flags) (decide ("quiet".toList ∈ argv))
      (decide ("override".toList ∈ argv)) with
    ⟨_, _, _, hl⟩ | ⟨_, _, _, hl⟩ | ⟨buf, pre, hpre, _, hc, _, hlog, hr⟩
  · rcases hl with h | h | h <;> rw [h] at hreach <;> exact absurd hreach (by decide)
  · rw [hl] at hreach
    exact absurd hreach (by decide)
  · refine ⟨buf, by rw [hc], ?_, ?_⟩
    · intro hok
      rcases hr with ⟨_, hs, _⟩ | ⟨hbad, _, _⟩
      · exact hs
      · exact absurd hok hbad
    · intro hbad
      rcases hr with ⟨hok, _, _⟩ | ⟨_, hs, _⟩
      · exact absurd hok hbad
      · refine ⟨hs, ?_⟩
        rw [hlog, List.filter_append, List.filter_append, List.filter_append,
          filter_err_unknown, filter_err_of_info pre hpre]
        cases is_silent flags <;> cases decide ("quiet".toList ∈ argv) <;>
          simp [hbad, LOG_ERR, LOG_INFO]

/-- Witness of C9: a store whose `pam_putenv` fails with PAM_BUF_ERR. -/
theorem C9_store_write_failure_witness :
    (pam_sm_open_session (refLib PAM_BUF_ERR)
      (fresh (env_of [("XDG_RUNTIME_DIR".toList, "/run/user/1000".toList)])) 0 []).line = 110 ∧
    ∃ entry,
      (pam_sm_open_session (refLib PAM_BUF_ERR)
        (fresh (env_of [("XDG_RUNTIME_DIR".toList, "/run/user/1000".toList)])) 0
        []).pamh.putenv_calls
        = (fresh (env_of [("XDG_RUNTIME_DIR".toList, "/run/user/1000".toList)])).putenv_calls
          ++ [entry] ∧
      (((refLib PAM_BUF_ERR).pam_putenv
          (fresh (env_of [("XDG_RUNTIME_DIR".toList, "/run/user/1000".toList)])).env entry).1
            = PAM_SUCCESS →
        (pam_sm_open_session (refLib PAM_BUF_ERR)
          (fresh (env_of [("XDG_RUNTIME_DIR".toList, "/run/user/1000".toList)])) 0
          []).status = PAM_SUCCESS) ∧
      (((refLib PAM_BUF_ERR).pam_putenv
          (fresh (env_of [("XDG_RUNTIME_DIR".toList, "/run/user/1000".toList)])).env entry).1
            ≠ PAM_SUCCESS →
        (pam_sm_open_session (refLib PAM_BUF_ERR)
          (fresh (env_of [("XDG_RUNTIME_DIR".toList, "/run/user/1000".toList)])) 0
          []).status = PAM_SESSION_ERR ∧
        (emitted (fresh (env_of [("XDG_RUNTIME_DIR".toList, "/run/user/1000".toList)]))
          (pam_sm_open_session (refLib PAM_BUF_ERR)
            (fresh (env_of [("XDG_RUNTIME_DIR".toList, "/run/user/1000".toList)])) 0
            [])).filter (fun e => decide (e.priority = LOG_ERR)) =
          unknown_option_entries [] ++
            (if is_silent 0 then []
             else [⟨LOG_ERR, "Failed to define DBUS_SESSION_BUS_ADDRESS in env: ".toList
               ++ (refLib PAM_BUF_ERR).pam_strerror
                 ((refLib PAM_BUF_ERR).pam_putenv
                   (fresh (env_of [("XDG_RUNTIME_DIR".toList,
                     "/run/user/1000".toList)])).env entry).1⟩])) :=
  ⟨by decide,
    C9_store_write_failure (refLib PAM_BUF_ERR)
      (fresh (env_of [("XDG_RUNTIME_DIR".toList, "/run/user/1000".toList)])) 0 []
      (Or.inl (by decide))⟩

theorem mem_filter_recognized (k : CStr) (argv : List CStr)
    (hk : k = "quiet".toList ∨ k = "override".toList) :
    k ∈ argv.filter (fun a => decide (a = "quiet".toList ∨ a = "override".toList)) ↔
      k ∈ argv := by
  rw [List.mem_filter]
  exact ⟨fun h => h.1, fun h => ⟨h, decide_eq_true hk⟩⟩

/-- C10: after the option loop quiet mode is on iff some token is exactly `quiet` and
override mode is on iff some token is exactly `override`; whatever the flags (PAM_SILENT
included) and whether or not `quiet` is present, the hook first logs one error-level
"Unknown option" entry for each unrecognized token, in argument order, and everything
else (the further entries, the status, the writes, the store) is what the hook does on
the argument list with the unrecognized tokens removed. -/
theorem C10_policy_tokens {σ : Type} (L : PamLib σ) (pamh : pam_handle_t σ) (flags : Int)
    (argv : List CStr) :
    ((parse_options pamh false false argv).quiet = true ↔ "quiet".toList ∈ argv) ∧
    ((parse_options pamh false false argv).override = true ↔ "override".toList ∈ argv) ∧
    emitted pamh (pam_sm_open_session L pamh flags argv) =
      (argv.filter (fun a => a ≠ "quiet".toList ∧ a ≠ "override".toList)).map
          (fun a => ⟨LOG_ERR, "Unknown option: ".toList ++ a⟩)
        ++ emitted pamh (pam_sm_open_session L pamh flags
          (argv.filter (fun a => decide (a = "quiet".toList ∨ a = "override".toList)))) ∧
    (pam_sm_open_session L pamh flags argv).status =
      (pam_sm_open_session L pamh flags
        (argv.filter (fun a => decide (a = "quiet".toList ∨ a = "override".toList)))).status ∧
    (pam_sm_open_session L pamh flags argv).pamh.putenv_calls =
      (pam_sm_open_session L pamh flags
        (argv.filter (fun a => decide (a = "quiet".toList ∨ a = "override".toList)))
        ).pamh.putenv_calls ∧
    (pam_sm_open_session L pamh flags argv).pamh.env =
      (pam_sm_open_session L pamh flags
        (argv.filter (fun a => decide (a = "quiet".toList ∨ a = "override".toList)))).pamh.env
    := by
  have hq := parse_options_quiet pamh false false argv
  have ho := parse_options_override pamh false false argv
  rw [Bool.false_or] at hq ho
  have hf := open_session_frame L pamh flags argv
  have hg := open_session_frame L pamh flags
    (argv.filter (fun a => decide (a = "quiet".toList ∨ a = "override".toList)))
  have eq : decide ("quiet".toList ∈
      argv.filter (fun a => decide (a = "quiet".toList ∨ a = "override".toList)))
      = decide ("quiet".toList ∈ argv) :=
    decide_eq_decide.2 (mem_filter_recognized _ argv (Or.inl rfl))
  have eo : decide ("override".toList ∈
      argv.filter (fun a => decide (a = "quiet".toList ∨ a = "override".toList)))
      = decide ("override".toList ∈ argv) :=
    decide_eq_decide.2 (mem_filter_recognized _ argv (Or.inr rfl))
  have hnil : unknown_option_entries
      (argv.filter (fun a => decide (a = "quiet".toList ∨ a = "override".toList))) = [] :=
    unknown_option_entries_eq_nil _ (fun a ha => of_decide_eq_true (List.mem_filter.1 ha).2)
  rw [eq, eo, hnil, List.nil_append] at hg
  refine ⟨?_, ?_, ?_, ?_, ?_, ?_⟩
  · rw [hq, decide_eq_true_iff]
  · rw [ho, decide_eq_true_iff]
  · rw [hf.2.2.2.2, hg.2.2.2.2]
    rfl
  · rw [hf.1, hg.1]
  · rw [hf.2.2.2.1, hg.2.2.2.1]
  · rw [hf.2.2.1, hg.2.2.1]

/-- Witness of C10: the token `foo` is logged although PAM_SILENT is set. -/
theorem C10_policy_tokens_witness :
    is_silent PAM_SILENT = true ∧
    emitted (fresh (env_of [])) (pam_sm_open_session (refLib PAM_SUCCESS) (fresh (env_of []))
      PAM_SILENT ["foo".toList]) = [⟨LOG_ERR, "Unknown option: foo".toList⟩] := by
  have h := (C10_policy_tokens (refLib PAM_SUCCESS) (fresh (env_of [])) PAM_SILENT
    ["foo".toList]).2.2.1
  refine ⟨by decide, ?_⟩
  rw [h]
  decide

/-! ## Verbosity -/

theorem assign_step_verbose_form {σ : Type} (L : PamLib σ) (env : σ) (pre : List LogEntry)
    (s q : Bool) (buf : CStr) :
    (assign_step L ⟨env, pre.filter (audible s q), []⟩ s q buf).status
      = (assign_step L ⟨env, pre, []⟩ false false buf).status ∧
    (assign_step L ⟨env, pre.filter (audible s q), []⟩ s q buf).line
      = (assign_step L ⟨env, pre, []⟩ false false buf).line ∧
    (assign_step L ⟨env, pre.filter (audible s q), []⟩ s q buf).pamh.env
      = (assign_step L ⟨env, pre, []⟩ false false buf).pamh.env ∧
    (assign_step L ⟨env, pre.filter (audible s q), []⟩ s q buf).pamh.putenv_calls
      = (assign_step L ⟨env, pre, []⟩ false false buf).pamh.putenv_calls ∧
    (assign_step L ⟨env, pre.filter (audible s q), []⟩ s q buf).pamh.syslog
      = (assign_step L ⟨env, pre, []⟩ false false buf).pamh.syslog.filter (audible s q) := by
  have c1 := assign_step_putenv_calls L ⟨env, pre.filter (audible s q), []⟩ s q buf
  have c2 := assign_step_putenv_calls L ⟨env, pre, []⟩ false false buf
  have s1 := assign_step_status L ⟨env, pre.filter (audible s q), []⟩ s q buf
  have s2 := assign_step_status L ⟨env, pre, []⟩ false false buf
  refine ⟨?_, ?_, ?_, ?_, ?_⟩
  · by_cases hr : (L.pam_putenv env buf).1 = PAM_SUCCESS
    · rw [(s1.1 hr).1, (s2.1 hr).1]
    · rw [(s1.2 hr).1, (s2.2 hr).1]
  · by_cases hr : (L.pam_putenv env buf).1 = PAM_SUCCESS
    · rw [(s1.1 hr).2, (s2.1 hr).2]
    · rw [(s1.2 hr).2, (s2.2 hr).2]
  · rw [c1.2, c2.2]
  · rw [c1.1, c2.1]
  · rw [assign_step_syslog, assign_step_syslog, List.filter_append, List.filter_append]
    by_cases hr : (L.pam_putenv env buf).1 = PAM_SUCCESS <;>
      cases s <;> cases q <;> simp [hr, audible, LOG_ERR, LOG_INFO]

/-- The verbosity settings act on the log only, and only by filtering: a run of the body
with settings `s`, `q` has the status, exit, store and writes of the run with neither
set, and logs those of its entries that the settings let through, in the same order. -/
theorem body_verbose_form {σ : Type} (L : PamLib σ) (env : σ) (s q o : Bool) :
    (open_session_body L ⟨env, [], []⟩ s q o).status
      = (open_session_body L ⟨env, [], []⟩ false false o).status ∧
    (open_session_body L ⟨env, [], []⟩ s q o).line
      = (open_session_body L ⟨env, [], []⟩ false false o).line ∧
    (open_session_body L ⟨env, [], []⟩ s q o).pamh.env
      = (open_session_body L ⟨env, [], []⟩ false false o).pamh.env ∧
    (open_session_body L ⟨env, [], []⟩ s q o).pamh.putenv_calls
      = (open_session_body L ⟨env, [], []⟩ false false o).pamh.putenv_calls ∧
    (open_session_body L ⟨env, [], []⟩ s q o).pamh.syslog
      = (open_session_body L ⟨env, [], []⟩ false false o).pamh.syslog.filter (audible s q) := by
  by_cases hin : ∀ p, L.pam_getenv env "XDG_RUNTIME_DIR".toList = some p → p.head? ≠ some '/'
  · rw [body_input_error L ⟨env, [], []⟩ s q o hin,
      body_input_error L ⟨env, [], []⟩ false false o hin]
    unfold input_error
    cases s <;> cases q <;> simp [pam_syslog, audible]
  · simp only [not_forall, ne_eq, not_not] at hin
    obtain ⟨p, hx, habs⟩ := hin
    by_cases hlen : (snprintf (DSBA_NAME_VALUE_PREFIX ++ L.snprintf_failed p) (35 + PATH_MAX)
        (DSBA_NAME_VALUE_PREFIX ++ p ++ "/bus".toList)).2 ≥ ((35 + PATH_MAX : Nat) : Int)
    · rw [body_length_error L ⟨env, [], []⟩ s q o p hx habs hlen,
        body_length_error L ⟨env, [], []⟩ false false o p hx habs hlen]
      cases s <;> cases q <;> simp [pam_syslog, audible]
    · have hnil : ([] : List LogEntry) = ([] : List LogEntry).filter (audible s q) := rfl
      cases hcur : L.pam_getenv env "DBUS_SESSION_BUS_ADDRESS".toList with
      | none =>
        rw [body_assign_unset L ⟨env, [], []⟩ s q o p hx habs hlen (Or.inl hcur),
          body_assign_unset L ⟨env, [], []⟩ false false o p hx habs hlen (Or.inl hcur)]
        exact assign_step_verbose_form L env [] s q _
      | some c =>
        by_cases hc : c = []
        · subst hc
          rw [body_assign_unset L ⟨env, [], []⟩ s q o p hx habs hlen (Or.inr hcur),
            body_assign_unset L ⟨env, [], []⟩ false false o p hx habs hlen (Or.inr hcur)]
          exact assign_step_verbose_form L env [] s q _
        · by_cases hcmp : strncmp c
            ((snprintf (DSBA_NAME_VALUE_PREFIX ++ L.snprintf_failed p)
                (35 + PATH_MAX) (DSBA_NAME_VALUE_PREFIX ++ p ++ "/bus".toList)).1.drop
              DSBA_VALUE_OFFSET) (PATH_MAX + 1) = 0
          · rw [body_already_correct L ⟨env, [], []⟩ s q o p c hx habs hlen hcur hc hcmp,
              body_already_correct L ⟨env, [], []⟩ false false o p c hx habs hlen hcur hc hcmp]
            cases s <;> cases q <;> simp [pam_syslog, audible, LOG_ERR, LOG_INFO]
          · cases o with
            | false =>
              rw [body_reject L ⟨env, [], []⟩ s q p c hx habs hlen hcur hc hcmp,
                body_reject L ⟨env, [], []⟩ false false p c hx habs hlen hcur hc hcmp]
              cases s <;> cases q <;> simp [pam_syslog, audible]
            | true =>
              rw [body_override L ⟨env, [], []⟩ s q p c hx habs hlen hcur hc hcmp,
                body_override L ⟨env, [], []⟩ false false p c hx habs hlen hcur hc hcmp]
              have e1 : (if !s && !q then pam_syslog (⟨env, [], []⟩ : pam_handle_t σ) LOG_INFO
                  ("Overriding current DBUS_SESSION_BUS_ADDRESS value: ".toList ++ c)
                 else ⟨env, [], []⟩) =
                  ⟨env, List.filter (audible s q)
                    [⟨LOG_INFO,
                      "Overriding current DBUS_SESSION_BUS_ADDRESS value: ".toList ++ c⟩], []⟩ := by
                cases s <;> cases q <;> rfl
              have e2 : (if !false && !false then
                  pam_syslog (⟨env, [], []⟩ : pam_handle_t σ) LOG_INFO
                    ("Overriding current DBUS_SESSION_BUS_ADDRESS value: ".toList ++ c)
                 else ⟨env, [], []⟩) =
                  ⟨env, [⟨LOG_INFO,
                    "Overriding current DBUS_SESSION_BUS_ADDRESS value: ".toList ++ c⟩], []⟩ :=
                rfl
              rw [e1, e2]
              exact assign_step_verbose_form L env _ s q _

theorem filter_audible_silent (q : Bool) (l : List LogEntry) :
    l.filter (audible true q) = [] := by
  rw [List.filter_eq_nil_iff]
  intro e _
  unfold audible
  split <;> simp

theorem filter_info_audible_quiet (s : Bool) (l : List LogEntry) :
    (l.filter (audible s true)).filter (fun e => decide (e.priority = LOG_INFO)) = [] := by
  rw [List.filter_eq_nil_iff]
  intro e he
  have ha := (List.mem_filter.1 he).2
  intro hinfo
  have hp : e.priority = LOG_INFO := of_decide_eq_true hinfo
  unfold audible at ha
  rw [hp] at ha
  revert ha
  cases s <;> decide

theorem filter_err_audible (s q : Bool) (l : List LogEntry) :
    (l.filter (audible s q)).filter (fun e => decide (e.priority = LOG_ERR)) =
      (l.filter (audible s false)).filter (fun e => decide (e.priority = LOG_ERR)) := by
  induction l with
  | nil => rfl
  | cons e es ih =>
    by_cases hp : e.priority = LOG_ERR
    · have h1 : audible s q e = audible s false e := by
        unfold audible
        rw [if_pos hp, if_pos hp]
      rw [List.filter_cons, List.filter_cons, h1]
      cases audible s false e
      · simpa using ih
      · simp only [if_true, List.filter_cons, hp, decide_True, ih]
    · rw [List.filter_cons, List.filter_cons]
      cases audible s q e <;> cases audible s false e <;>
        simp [List.filter_cons, hp, ih]

theorem unknown_option_entries_drop_quiet (argv : List CStr) :
    unknown_option_entries (argv.filter (fun a => decide (a ≠ "quiet".toList)))
      = unknown_option_entries argv := by
  unfold unknown_option_entries
  rw [List.filter_filter]
  congr 1
  apply List.filter_congr
  intro a _
  by_cases h1 : a = "quiet".toList <;> by_cases h2 : a = "override".toList <;> simp_all

theorem override_mem_drop_quiet (argv : List CStr) :
    decide ("override".toList ∈ argv.filter (fun a => decide (a ≠ "quiet".toList)))
      = decide ("override".toList ∈ argv) := by
  apply decide_eq_decide.2
  rw [List.mem_filter]
  exact ⟨fun h => h.1, fun h => ⟨h, by decide⟩⟩

theorem quiet_not_mem_drop_quiet (argv : List CStr) :
    decide ("quiet".toList ∈ argv.filter (fun a => decide (a ≠ "quiet".toList))) = false := by
  apply decide_eq_false
  intro h
  have h2 := (List.mem_filter.1 h).2
  exact absurd rfl (of_decide_eq_true h2)

/-- C11: if PAM_SILENT is set, the entries the hook logs are exactly the "Unknown
option" errors for the unrecognized tokens, nothing else; if `quiet` is among the
arguments, no informational entry is logged and the error-level entries are those of the
run on the same arguments without `quiet`. -/
theorem C11_uniform_log_suppression {σ : Type} (L : PamLib σ) (pamh : pam_handle_t σ)
    (flags : Int) (argv : List CStr) :
    (is_silent flags = true →
      emitted pamh (pam_sm_open_session L pamh flags argv) = unknown_option_entries argv) ∧
    ("quiet".toList ∈ argv →
      (emitted pamh (pam_sm_open_session L pamh flags argv)).filter
          (fun e => decide (e.priority = LOG_INFO)) = [] ∧
      (emitted pamh (pam_sm_open_session L pamh flags argv)).filter
          (fun e => decide (e.priority = LOG_ERR)) =
        (emitted pamh (pam_sm_open_session L pamh flags
          (argv.filter (fun a => decide (a ≠ "quiet".toList))))).filter
            (fun e => decide (e.priority = LOG_ERR))) := by
  have hf := (open_session_frame L pamh flags argv).2.2.2.2
  have hg := (open_session_frame L pamh flags
    (argv.filter (fun a => decide (a ≠ "quiet".toList)))).2.2.2.2
  rw [unknown_option_entries_drop_quiet, override_mem_drop_quiet,
    quiet_not_mem_drop_quiet] at hg
  have hv := (body_verbose_form L pamh.env (is_silent flags) (decide ("quiet".toList ∈ argv))
    (decide ("override".toList ∈ argv))).2.2.2.2
  have hw := (body_verbose_form L pamh.env (is_silent flags) false
    (decide ("override".toList ∈ argv))).2.2.2.2
  rw [hv] at hf
  rw [hw] at hg
  constructor
  · intro hs
    rw [hf, hs, filter_audible_silent, List.append_nil]
  · intro hq
    rw [hf, hg, decide_eq_true hq]
    constructor
    · rw [List.filter_append, filter_info_unknown, filter_info_audible_quiet, List.append_nil]
    · rw [List.filter_append, List.filter_append, filter_err_audible]

/-- Witness of C11: silent and quiet, one unknown token, the runtime directory unset. -/
theorem C11_uniform_log_suppression_witness :
    is_silent PAM_SILENT = true ∧
    emitted (fresh (env_of [])) (pam_sm_open_session (refLib PAM_SUCCESS) (fresh (env_of []))
      PAM_SILENT ["quiet".toList, "foo".toList]) = [⟨LOG_ERR, "Unknown option: foo".toList⟩] := by
  have h := (C11_uniform_log_suppression (refLib PAM_SUCCESS) (fresh (env_of [])) PAM_SILENT
    ["quiet".toList, "foo".toList]).1 (by decide)
  refine ⟨by decide, ?_⟩
  rw [h]
  decide

/-- C17: two invocations on the same handle and store whose argument lists agree once
the `quiet` tokens are removed, with any two flag words (the hook reads no flag but
PAM_SILENT), return the same status from the same exit, make the same writes and leave
the same store; only the log may differ. -/
theorem C17_verbosity_does_not_decide {σ : Type} (L : PamLib σ) (pamh : pam_handle_t σ)
    (flags1 flags2 : Int) (argv1 argv2 : List CStr)
    (hargs : argv1.filter (fun a => decide (a ≠ "quiet".toList))
      = argv2.filter (fun a => decide (a ≠ "quiet".toList))) :
    (pam_sm_open_session L pamh flags1 argv1).status
      = (pam_sm_open_session L pamh flags2 argv2).status ∧
    (pam_sm_open_session L pamh flags1 argv1).line
      = (pam_sm_open_session L pamh flags2 argv2).line ∧
    (pam_sm_open_session L pamh flags1 argv1).pamh.putenv_calls
      = (pam_sm_open_session L pamh flags2 argv2).pamh.putenv_calls ∧
    (pam_sm_open_session L pamh flags1 argv1).pamh.env
      = (pam_sm_open_session L pamh flags2 argv2).pamh.env := by
  have ho : decide ("override".toList ∈ argv1) = decide ("override".toList ∈ argv2) := by
    rw [← override_mem_drop_quiet argv1, ← override_mem_drop_quiet argv2, hargs]
  have hf := open_session_frame L pamh flags1 argv1
  have hg := open_session_frame L pamh flags2 argv2
  have hv := body_verbose_form L pamh.env (is_silent flags1) (decide ("quiet".toList ∈ argv1))
    (decide ("override".toList ∈ argv1))
  have hw := body_verbose_form L pamh.env (is_silent flags2) (decide ("quiet".toList ∈ argv2))
    (decide ("override".toList ∈ argv2))
  rw [ho] at hf hv
  refine ⟨?_, ?_, ?_, ?_⟩
  · rw [hf.1, hg.1, hv.1, hw.1]
  · rw [hf.2.1, hg.2.1, hv.2.1, hw.2.1]
  · rw [hf.2.2.2.1, hg.2.2.2.1, hv.2.2.2.1, hw.2.2.2.1]
  · rw [hf.2.2.1, hg.2.2.1, hv.2.2.1, hw.2.2.1]

/-- Witness of C17: silent and quiet against verbose, the address being assigned. -/
theorem C17_verbosity_does_not_decide_witness :
    (pam_sm_open_session (refLib PAM_SUCCESS)
      (fresh (env_of [("XDG_RUNTIME_DIR".toList, "/run/user/1000".toList)])) PAM_SILENT
      ["quiet".toList, "override".toList]).status
      = (pam_sm_open_session (refLib PAM_SUCCESS)
        (fresh (env_of [("XDG_RUNTIME_DIR".toList, "/run/user/1000".toList)])) 0
        ["override".toList]).status ∧
    (pam_sm_open_session (refLib PAM_SUCCESS)
      (fresh (env_of [("XDG_RUNTIME_DIR".toList, "/run/user/1000".toList)])) PAM_SILENT
      ["quiet".toList, "override".toList]).pamh.putenv_calls
      = (pam_sm_open_session (refLib PAM_SUCCESS)
        (fresh (env_of [("XDG_RUNTIME_DIR".toList, "/run/user/1000".toList)])) 0
        ["override".toList]).pamh.putenv_calls :=
  have h := C17_verbosity_does_not_decide (refLib PAM_SUCCESS)
    (fresh (env_of [("XDG_RUNTIME_DIR".toList, "/run/user/1000".toList)])) PAM_SILENT 0
    ["quiet".toList, "override".toList] ["override".toList] (by decide)
  ⟨h.1, h.2.2.1⟩

/-- C12: for every handle, flags and argument list `pam_sm_close_session` returns
PAM_IGNORE and hands back the handle as it received it: the store, the list of entries
handed to `pam_putenv` and the log are untouched, and nothing is logged. -/
theorem C12_close_session_ignored {σ : Type} (pamh : pam_handle_t σ) (flags : Int)
    (argv : List CStr) :
    (pam_sm_close_session pamh flags argv).status = PAM_IGNORE ∧
    (pam_sm_close_session pamh flags argv).pamh.env = pamh.env ∧
    (pam_sm_close_session pamh flags argv).pamh.putenv_calls = pamh.putenv_calls ∧
    (pam_sm_close_session pamh flags argv).pamh.syslog = pamh.syslog ∧
    emitted pamh (pam_sm_close_session pamh flags argv) = [] := by
  refine ⟨rfl, rfl, rfl, rfl, ?_⟩
  unfold emitted pam_sm_close_session
  exact List.drop_length _

theorem should_not_be_called_spec {σ : Type} (name : CStr) (pamh : pam_handle_t σ)
    (flags : Int) (argv : List CStr) :
    (define_should_not_be_called_function name pamh flags argv).status = PAM_SERVICE_ERR ∧
    (define_should_not_be_called_function name pamh flags argv).pamh.env = pamh.env ∧
    (define_should_not_be_called_function name pamh flags argv).pamh.putenv_calls
      = pamh.putenv_calls ∧
    emitted pamh (define_should_not_be_called_function name pamh flags argv) =
      [⟨LOG_ERR, "Module does not provide \x27".toList ++ name ++ "\x27 function".toList⟩] := by
  refine ⟨rfl, rfl, rfl, ?_⟩
  unfold emitted define_should_not_be_called_function pam_syslog
  exact List.drop_left _ _

/-- C13: each of `pam_sm_authenticate`, `pam_sm_setcred`, `pam_sm_acct_mgmt` and
`pam_sm_chauthtok` returns PAM_SERVICE_ERR for every flags value and argument list
(PAM_SILENT and `quiet` included), leaves the store and the list of writes as they were,
and logs exactly one error-level entry, which names its own capability. -/
theorem C13_unimplemented_entry_points {σ : Type} (pamh : pam_handle_t σ) (flags : Int)
    (argv : List CStr) :
    ((pam_sm_authenticate pamh flags argv).status = PAM_SERVICE_ERR ∧
      (pam_sm_authenticate pamh flags argv).pamh.env = pamh.env ∧
      (pam_sm_authenticate pamh flags argv).pamh.putenv_calls = pamh.putenv_calls ∧
      emitted pamh (pam_sm_authenticate pamh flags argv) =
        [⟨LOG_ERR, "Module does not provide \x27authenticate\x27 function".toList⟩]) ∧
    ((pam_sm_setcred pamh flags argv).status = PAM_SERVICE_ERR ∧
      (pam_sm_setcred pamh flags argv).pamh.env = pamh.env ∧
      (pam_sm_setcred pamh flags argv).pamh.putenv_calls = pamh.putenv_calls ∧
      emitted pamh (pam_sm_setcred pamh flags argv) =
        [⟨LOG_ERR, "Module does not provide \x27setcred\x27 function".toList⟩]) ∧
    ((pam_sm_acct_mgmt pamh flags argv).status = PAM_SERVICE_ERR ∧
      (pam_sm_acct_mgmt pamh flags argv).pamh.env = pamh.env ∧
      (pam_sm_acct_mgmt pamh flags argv).pamh.putenv_calls = pamh.putenv_calls ∧
      emitted pamh (pam_sm_acct_mgmt pamh flags argv) =
        [⟨LOG_ERR, "Module does not provide \x27acct_mgmt\x27 function".toList⟩]) ∧
    ((pam_sm_chauthtok pamh flags argv).status = PAM_SERVICE_ERR ∧
      (pam_sm_chauthtok pamh flags argv).pamh.env = pamh.env ∧
      (pam_sm_chauthtok pamh flags argv).pamh.putenv_calls = pamh.putenv_calls ∧
      emitted pamh (pam_sm_chauthtok pamh flags argv) =
        [⟨LOG_ERR, "Module does not provide \x27chauthtok\x27 function".toList⟩]) :=
  ⟨should_not_be_called_spec "authenticate".toList pamh flags argv,
   should_not_be_called_spec "setcred".toList pamh flags argv,
   should_not_be_called_spec "acct_mgmt".toList pamh flags argv,
   should_not_be_called_spec "chauthtok".toList pamh flags argv⟩

/-- Witness of C13: `pam_sm_setcred` called silent and quiet still logs its entry. -/
theorem C13_unimplemented_entry_points_witness :
    is_silent PAM_SILENT = true ∧
    (pam_sm_setcred (fresh (env_of [])) PAM_SILENT ["quiet".toList]).status = PAM_SERVICE_ERR ∧
    (pam_sm_setcred (fresh (env_of [])) PAM_SILENT ["quiet".toList]).pamh.syslog =
      [⟨LOG_ERR, "Module does not provide \x27setcred\x27 function".toList⟩] :=
  have h := (C13_unimplemented_entry_points (fresh (env_of [])) PAM_SILENT
    ["quiet".toList]).2.1
  ⟨by decide, h.1, h.2.2.2⟩

theorem dsba_value_length (p : CStr) :
    ("unix:path=".toList ++ p ++ "/bus".toList).length = p.length + 14 := by
  have h1 : "unix:path=".toList.length = 10 := by decide
  have h2 : "/bus".toList.length = 4 := by decide
  rw [List.length_append, List.length_append, h1, h2]
  omega

/-- Once both checks are passed and the existing value is non-empty, the hook leaves by
the already-correct exit exactly when the comparison of line 80-81 ends equal. -/
theorem already_correct_iff_compare {σ : Type} (L : PamLib σ) (pamh : pam_handle_t σ)
    (flags : Int) (argv : List CStr) (p e : CStr)
    (hx : L.pam_getenv pamh.env "XDG_RUNTIME_DIR".toList = some p)
    (habs : p.head? = some '/')
    (hpass : ¬ (snprintf (DSBA_NAME_VALUE_PREFIX ++ L.snprintf_failed p) (35 + PATH_MAX)
      (DSBA_NAME_VALUE_PREFIX ++ p ++ "/bus".toList)).2 ≥ ((35 + PATH_MAX : Nat) : Int))
    (hcur : L.pam_getenv pamh.env "DBUS_SESSION_BUS_ADDRESS".toList = some e)
    (hne : e ≠ []) :
    (pam_sm_open_session L pamh flags argv).line = 87 ↔
      strncmp e
        ((snprintf (DSBA_NAME_VALUE_PREFIX ++ L.snprintf_failed p) (35 + PATH_MAX)
          (DSBA_NAME_VALUE_PREFIX ++ p ++ "/bus".toList)).1.drop DSBA_VALUE_OFFSET)
        (PATH_MAX + 1) = 0 := by
  rw [(open_session_frame L pamh flags argv).2.1]
  by_cases hz : strncmp e
      ((snprintf (DSBA_NAME_VALUE_PREFIX ++ L.snprintf_failed p) (35 + PATH_MAX)
        (DSBA_NAME_VALUE_PREFIX ++ p ++ "/bus".toList)).1.drop DSBA_VALUE_OFFSET)
      (PATH_MAX + 1) = 0
  · rw [body_already_correct L ⟨pamh.env, [], []⟩ _ _ _ p e hx habs hpass hcur hne hz]
    exact ⟨fun _ => hz, fun _ => rfl⟩
  · constructor
    · intro h87
      cases ho : decide ("override".toList ∈ argv) with
      | false =>
        rw [ho, body_reject L ⟨pamh.env, [], []⟩ _ _ p e hx habs hpass hcur hne hz] at h87
        have h98 : (98 : Nat) = 87 := h87
        exact absurd h98 (by decide)
      | true =>
        rw [ho, body_override L ⟨pamh.env, [], []⟩ _ _ p e hx habs hpass hcur hne hz] at h87
        rcases assign_step_line L
          (if !is_silent flags && !decide ("quiet".toList ∈ argv) then
            pam_syslog (⟨pamh.env, [], []⟩ : pam_handle_t σ) LOG_INFO
              ("Overriding current DBUS_SESSION_BUS_ADDRESS value: ".toList ++ e)
           else ⟨pamh.env, [], []⟩) (is_silent flags) (decide ("quiet".toList ∈ argv))
          (snprintf (DSBA_NAME_VALUE_PREFIX ++ L.snprintf_failed p) (35 + PATH_MAX)
            (DSBA_NAME_VALUE_PREFIX ++ p ++ "/bus".toList)).1
          with h | h
        · rw [h] at h87
          exact absurd h87 (by decide)
        · rw [h] at h87
          exact absurd h87 (by decide)
    · intro h
      exact absurd h hz

/-- The length of the buffer after line 69, whether the call succeeded or failed. -/
theorem buffer_length (tail p : CStr) :
    (snprintf (DSBA_NAME_VALUE_PREFIX ++ tail) (35 + PATH_MAX)
      (DSBA_NAME_VALUE_PREFIX ++ p ++ "/bus".toList)).1.length =
      25 + min 4105 (10 + (if (DSBA_NAME_VALUE_PREFIX ++ p ++ "/bus".toList).length ≤ INT_MAX
        then p ++ "/bus".toList else tail).length) := by
  have h1 : "DBUS_SESSION_BUS_ADDRESS".toList.length = 24 := by decide
  have h2 : "unix:path=".toList.length = 10 := by decide
  rw [buffer_eq, List.length_append, List.length_cons, List.length_take, List.length_append,
    h1, h2]
  omega

/-- C16: the working buffer of `pam_sm_open_session` is what `snprintf` with size
35 + PATH_MAX stores for the entry of XDG_RUNTIME_DIR = `p`, whatever the length of `p`.
Its bytes together with the terminating NUL number at most 35 + PATH_MAX, within the
declared capacity `DSBA_NAME_VALUE_MAX_LENGTH + 1`, and an entry the hook hands to
`pam_putenv` is that buffer.  Whenever the comparison is reached (`p` starts with a
slash, the length test did not fire, the existing value `e` is non-empty) the formatted
string has at least 40 bytes, offset `DSBA_VALUE_OFFSET` lies strictly inside the buffer,
the buffer is `DBUS_SESSION_BUS_ADDRESS=` followed by the slice taken there, the buffer
too holds at least 40 bytes when the call succeeded, and the hook takes the
already-correct exit exactly when `strncmp` of `e` against that slice is zero. -/
theorem C16_buffer_bounds {σ : Type} (L : PamLib σ) (pamh : pam_handle_t σ) (flags : Int)
    (argv : List CStr) (p e : CStr)
    (hx : L.pam_getenv pamh.env "XDG_RUNTIME_DIR".toList = some p) :
    ((snprintf (DSBA_NAME_VALUE_PREFIX ++ L.snprintf_failed p) (35 + PATH_MAX)
      ("DBUS_SESSION_BUS_ADDRESS=unix:path=".toList ++ p ++ "/bus".toList)).1.length + 1
        ≤ 35 + PATH_MAX ∧
      35 + PATH_MAX ≤ DSBA_NAME_VALUE_MAX_LENGTH + 1) ∧
    ((pam_sm_open_session L pamh flags argv).pamh.putenv_calls = pamh.putenv_calls ∨
      (pam_sm_open_session L pamh flags argv).pamh.putenv_calls = pamh.putenv_calls ++
        [(snprintf (DSBA_NAME_VALUE_PREFIX ++ L.snprintf_failed p) (35 + PATH_MAX)
          ("DBUS_SESSION_BUS_ADDRESS=unix:path=".toList ++ p ++ "/bus".toList)).1]) ∧
    (p.head? = some '/' →
      ¬ (snprintf (DSBA_NAME_VALUE_PREFIX ++ L.snprintf_failed p) (35 + PATH_MAX)
        ("DBUS_SESSION_BUS_ADDRESS=unix:path=".toList ++ p ++ "/bus".toList)).2
          ≥ ((35 + PATH_MAX : Nat) : Int) →
      L.pam_getenv pamh.env "DBUS_SESSION_BUS_ADDRESS".toList = some e →
      e ≠ [] →
        40 ≤ ("DBUS_SESSION_BUS_ADDRESS=unix:path=".toList ++ p ++ "/bus".toList).length ∧
        DSBA_VALUE_OFFSET <
          (snprintf (DSBA_NAME_VALUE_PREFIX ++ L.snprintf_failed p) (35 + PATH_MAX)
            ("DBUS_SESSION_BUS_ADDRESS=unix:path=".toList ++ p ++ "/bus".toList)).1.length ∧
        (snprintf (DSBA_NAME_VALUE_PREFIX ++ L.snprintf_failed p) (35 + PATH_MAX)
          ("DBUS_SESSION_BUS_ADDRESS=unix:path=".toList ++ p ++ "/bus".toList)).1 =
          "DBUS_SESSION_BUS_ADDRESS=".toList ++
            (snprintf (DSBA_NAME_VALUE_PREFIX ++ L.snprintf_failed p) (35 + PATH_MAX)
              ("DBUS_SESSION_BUS_ADDRESS=unix:path=".toList ++ p ++ "/bus".toList)).1.drop
                DSBA_VALUE_OFFSET ∧
        (("DBUS_SESSION_BUS_ADDRESS=unix:path=".toList ++ p ++ "/bus".toList).length
            ≤ INT_MAX →
          40 ≤ (snprintf (DSBA_NAME_VALUE_PREFIX ++ L.snprintf_failed p) (35 + PATH_MAX)
            ("DBUS_SESSION_BUS_ADDRESS=unix:path=".toList ++ p ++ "/bus".toList)).1.length) ∧
        ((pam_sm_open_session L pamh flags argv).line = 87 ↔
          strncmp e
            ((snprintf (DSBA_NAME_VALUE_PREFIX ++ L.snprintf_failed p) (35 + PATH_MAX)
              ("DBUS_SESSION_BUS_ADDRESS=unix:path=".toList ++ p ++ "/bus".toList)).1.drop
                DSBA_VALUE_OFFSET) (PATH_MAX + 1) = 0)) := by
  have hpm : PATH_MAX = 4096 := rfl
  have hmax : DSBA_NAME_VALUE_MAX_LENGTH = 35 + PATH_MAX := rfl
  have hoff : DSBA_VALUE_OFFSET = 25 := rfl
  have hbl := buffer_length (L.snprintf_failed p) p
  have hel := dsba_entry_length p
  refine ⟨⟨?_, by omega⟩, ?_, ?_⟩
  · have := snprintf_length_le (DSBA_NAME_VALUE_PREFIX ++ L.snprintf_failed p)
      (35 + PATH_MAX) (DSBA_NAME_VALUE_PREFIX ++ p ++ "/bus".toList)
    have h2 : (snprintf (DSBA_NAME_VALUE_PREFIX ++ L.snprintf_failed p) (35 + PATH_MAX)
        ("DBUS_SESSION_BUS_ADDRESS=unix:path=".toList ++ p ++ "/bus".toList)).1.length
        ≤ 35 + PATH_MAX - 1 := this
    omega
  · have hf := open_session_frame L pamh flags argv
    rw [hf.2.2.2.1]
    rcases body_summary L pamh.env (is_silent flags) (decide ("quiet".toList ∈ argv))
        (decide ("override".toList ∈ argv)) with
      ⟨hc, _⟩ | ⟨hc, _⟩ | ⟨buf, pre, _, ⟨p2, hx2, _, hbuf⟩, hc, _⟩
    · rw [hc, List.append_nil]; exact Or.inl rfl
    · rw [hc, List.append_nil]; exact Or.inl rfl
    · rw [hx] at hx2
      cases hx2
      rw [hc, hbuf]
      exact Or.inr rfl
  · intro habs hpass hcur hne
    have hpos : 1 ≤ p.length := by
      cases p with
      | nil => cases habs
      | cons c cs => simp
    refine ⟨?_, ?_, ?_, ?_, ?_⟩
    · have h2 : ("DBUS_SESSION_BUS_ADDRESS=unix:path=".toList ++ p ++ "/bus".toList).length
          = p.length + 39 := hel
      omega
    · have h2 : (snprintf (DSBA_NAME_VALUE_PREFIX ++ L.snprintf_failed p) (35 + PATH_MAX)
          ("DBUS_SESSION_BUS_ADDRESS=unix:path=".toList ++ p ++ "/bus".toList)).1.length
          = _ := hbl
      rw [h2]
      omega
    · show (snprintf (DSBA_NAME_VALUE_PREFIX ++ L.snprintf_failed p) (35 + PATH_MAX)
          (DSBA_NAME_VALUE_PREFIX ++ p ++ "/bus".toList)).1 =
          "DBUS_SESSION_BUS_ADDRESS=".toList ++
            (snprintf (DSBA_NAME_VALUE_PREFIX ++ L.snprintf_failed p) (35 + PATH_MAX)
              (DSBA_NAME_VALUE_PREFIX ++ p ++ "/bus".toList)).1.drop DSBA_VALUE_OFFSET
      rw [buffer_drop, buffer_eq]
      rfl
    · intro hrep
      have h2 : (snprintf (DSBA_NAME_VALUE_PREFIX ++ L.snprintf_failed p) (35 + PATH_MAX)
          ("DBUS_SESSION_BUS_ADDRESS=unix:path=".toList ++ p ++ "/bus".toList)).1.length
          = _ := hbl
      have h3 : (DSBA_NAME_VALUE_PREFIX ++ p ++ "/bus".toList).length ≤ INT_MAX := hrep
      have h4 : "/bus".toList.length = 4 := by decide
      rw [h2, if_pos h3, List.length_append, h4]
      omega
    · exact already_correct_iff_compare L pamh flags argv p e hx habs hpass hcur hne

/-- Witness of C16: XDG_RUNTIME_DIR=/run/user/1000 against an address that points
elsewhere; the buffer holds the 53 bytes of the entry. -/
theorem C16_buffer_bounds_witness :
    ((snprintf (DSBA_NAME_VALUE_PREFIX ++
        (refLib PAM_SUCCESS).snprintf_failed "/run/user/1000".toList) (35 + PATH_MAX)
      ("DBUS_SESSION_BUS_ADDRESS=unix:path=".toList ++ "/run/user/1000".toList
        ++ "/bus".toList)).1.length + 1 ≤ 35 + PATH_MAX ∧
      35 + PATH_MAX ≤ DSBA_NAME_VALUE_MAX_LENGTH + 1) ∧
    DSBA_VALUE_OFFSET <
      (snprintf (DSBA_NAME_VALUE_PREFIX ++
          (refLib PAM_SUCCESS).snprintf_failed "/run/user/1000".toList) (35 + PATH_MAX)
        ("DBUS_SESSION_BUS_ADDRESS=unix:path=".toList ++ "/run/user/1000".toList
          ++ "/bus".toList)).1.length ∧
    ((pam_sm_open_session (refLib PAM_SUCCESS)
      (fresh (env_of [("XDG_RUNTIME_DIR".toList, "/run/user/1000".toList),
        ("DBUS_SESSION_BUS_ADDRESS".toList, "unix:path=/tmp/bus".toList)])) 0 []).line = 87 ↔
      strncmp "unix:path=/tmp/bus".toList
        ((snprintf (DSBA_NAME_VALUE_PREFIX ++
            (refLib PAM_SUCCESS).snprintf_failed "/run/user/1000".toList) (35 + PATH_MAX)
          ("DBUS_SESSION_BUS_ADDRESS=unix:path=".toList ++ "/run/user/1000".toList
            ++ "/bus".toList)).1.drop DSBA_VALUE_OFFSET) (PATH_MAX + 1) = 0) :=
  have h := C16_buffer_bounds (refLib PAM_SUCCESS)
    (fresh (env_of [("XDG_RUNTIME_DIR".toList, "/run/user/1000".toList),
      ("DBUS_SESSION_BUS_ADDRESS".toList, "unix:path=/tmp/bus".toList)])) 0 []
    "/run/user/1000".toList "unix:path=/tmp/bus".toList rfl
  have h3 := h.2.2 rfl (by decide) rfl (by decide)
  ⟨h.1, h3.2.1, h3.2.2.2.2⟩

/-- Within the range of `int` the length check fails exactly when `p/bus` with its NUL
does not fit in PATH_MAX bytes, and then the outcome is fixed without a look at the
existing value: the part of C14 the code keeps. -/
theorem length_check_threshold {σ : Type} (L : PamLib σ) (pamh : pam_handle_t σ)
    (flags : Int) (argv : List CStr) (p : CStr)
    (hx : L.pam_getenv pamh.env "XDG_RUNTIME_DIR".toList = some p)
    (habs : p.head? = some '/')
    (hrep : p.length + 39 ≤ INT_MAX) :
    ((pam_sm_open_session L pamh flags argv).line = 74 ↔ p.length + 4 ≥ PATH_MAX) ∧
    ((pam_sm_open_session L pamh flags argv).line ≠ 74 ↔ p.length ≤ PATH_MAX - 5) ∧
    (p.length + 4 ≥ PATH_MAX →
      (pam_sm_open_session L pamh flags argv).status = PAM_SESSION_ERR ∧
      (pam_sm_open_session L pamh flags argv).pamh.putenv_calls = pamh.putenv_calls ∧
      (pam_sm_open_session L pamh flags argv).pamh.env = pamh.env ∧
      emitted pamh (pam_sm_open_session L pamh flags argv) =
        unknown_option_entries argv ++
          (if is_silent flags then []
           else [⟨LOG_ERR, "Generated path exceeds PATH_MAX (".toList
             ++ (Nat.repr PATH_MAX).toList ++ ")".toList⟩])) := by
  have hpm : PATH_MAX = 4096 := rfl
  have hel := dsba_entry_length p
  have hchk : (snprintf (DSBA_NAME_VALUE_PREFIX ++ L.snprintf_failed p)
      (35 + PATH_MAX) (DSBA_NAME_VALUE_PREFIX ++ p ++ "/bus".toList)).2
      ≥ ((35 + PATH_MAX : Nat) : Int) ↔ p.length + 4 ≥ PATH_MAX := by
    rw [length_check_iff, hel]
    omega
  have hf := open_session_frame L pamh flags argv
  have hiff : (pam_sm_open_session L pamh flags argv).line = 74 ↔ p.length + 4 ≥ PATH_MAX := by
    rw [hf.2.1]
    by_cases hc : (snprintf (DSBA_NAME_VALUE_PREFIX ++ L.snprintf_failed p) (35 + PATH_MAX)
        (DSBA_NAME_VALUE_PREFIX ++ p ++ "/bus".toList)).2 ≥ ((35 + PATH_MAX : Nat) : Int)
    · rw [body_length_error L ⟨pamh.env, [], []⟩ _ _ _ p hx habs hc]
      exact ⟨fun _ => hchk.1 hc, fun _ => rfl⟩
    · have hl := body_line_of_pass L ⟨pamh.env, [], []⟩ (is_silent flags)
        (decide ("quiet".toList ∈ argv)) (decide ("override".toList ∈ argv)) p hx habs hc
      constructor
      · intro h74
        rw [h74] at hl
        exact absurd hl (by decide)
      · intro hge
        exact absurd (hchk.2 hge) hc
  refine ⟨hiff, ?_, fun hge => ?_⟩
  · rw [ne_eq, hiff]
    omega
  · have hb := body_length_error L ⟨pamh.env, [], []⟩ (is_silent flags)
      (decide ("quiet".toList ∈ argv)) (decide ("override".toList ∈ argv)) p hx habs
      (hchk.2 hge)
    rw [hb] at hf
    refine ⟨hf.1, ?_, ?_, ?_⟩
    · rw [hf.2.2.2.1]
      cases is_silent flags <;> simp [pam_syslog]
    · rw [hf.2.2.1]
      cases is_silent flags <;> simp [pam_syslog]
    · rw [hf.2.2.2.2]
      cases is_silent flags <;> simp [pam_syslog]

/-- C14 (the code departs from the claim): `huge_dir` starts with a slash and has
`len + 4 >= PATH_MAX`, so by the claim the hook fails at the length check; as the
formatted entry needs `INT_MAX + 1` bytes `snprintf` reports a negative value, the test
of line 69-70 does not fire, and the hook goes on to the assign step and returns
PAM_SUCCESS from line 113 after one write. -/
theorem C14_long_value_not_rejected :
    huge_dir.head? = some '/' ∧
    huge_dir.length + 4 ≥ PATH_MAX ∧
    (pam_sm_open_session (refLib PAM_SUCCESS)
      (fresh (env_of [("XDG_RUNTIME_DIR".toList, huge_dir)])) 0 []).line = 113 ∧
    (pam_sm_open_session (refLib PAM_SUCCESS)
      (fresh (env_of [("XDG_RUNTIME_DIR".toList, huge_dir)])) 0 []).pamh.putenv_calls.length
      = 1 := by
  have hlen : (DSBA_NAME_VALUE_PREFIX ++ huge_dir ++ "/bus".toList).length = INT_MAX + 1 := by
    rw [dsba_entry_length, huge_dir_length]
    rfl
  have hpass : ¬ (snprintf (DSBA_NAME_VALUE_PREFIX ++ (refLib PAM_SUCCESS).snprintf_failed huge_dir)
      (35 + PATH_MAX)
      (DSBA_NAME_VALUE_PREFIX ++ huge_dir ++ "/bus".toList)).2 ≥ ((35 + PATH_MAX : Nat) : Int) := by
    rw [length_check_iff, hlen]
    omega
  have hbody : pam_sm_open_session (refLib PAM_SUCCESS)
      (fresh (env_of [("XDG_RUNTIME_DIR".toList, huge_dir)])) 0 [] =
      assign_step (refLib PAM_SUCCESS) (fresh (env_of [("XDG_RUNTIME_DIR".toList, huge_dir)]))
        false false
        ((DSBA_NAME_VALUE_PREFIX ++ huge_dir ++ "/bus".toList).take 4130) := by
    have hs : is_silent 0 = false := by decide
    have hb := body_assign_unset (refLib PAM_SUCCESS)
      (fresh (env_of [("XDG_RUNTIME_DIR".toList, huge_dir)])) false false false huge_dir
      rfl rfl hpass (Or.inl rfl)
    rw [huge_dir_buffer] at hb
    rw [open_session_unfold, hs]
    exact hb
  have hput : ((refLib PAM_SUCCESS).pam_putenv
      (fresh (env_of [("XDG_RUNTIME_DIR".toList, huge_dir)])).env
      ((DSBA_NAME_VALUE_PREFIX ++ huge_dir ++ "/bus".toList).take 4130)).1 = PAM_SUCCESS := by
    have e : (DSBA_NAME_VALUE_PREFIX ++ huge_dir ++ "/bus".toList).take 4130 =
        "DBUS_SESSION_BUS_ADDRESS".toList ++
          '=' :: List.take 4105 ("unix:path=".toList ++ huge_dir ++ "/bus".toList) :=
      take_entry _
    rw [e, refLib_putenv_binds _ _ _ (by decide) (by decide)]
  refine ⟨rfl, ?_, ?_, ?_⟩
  · rw [huge_dir_length]
    decide
  · rw [hbody]
    exact ((assign_step_status _ _ _ _ _).1 hput).2
  · rw [hbody, (assign_step_putenv_calls _ _ _ _ _).1]
    rfl

/-- C15: for an absolute XDG_RUNTIME_DIR value `p` whose derived value
`unix:path=p/bus` has at most PATH_MAX bytes (such a `p` passes the length check) and for
every non-empty existing value `e`, the comparison of line 80-81, made against the buffer
sliced at offset 25 over at most PATH_MAX + 1 bytes, succeeds if and only if `e` is the
derived value byte for byte; and the hook leaves by the already-correct exit (line 87) in
exactly that case. -/
theorem C15_bounded_comparison_exact {σ : Type} (L : PamLib σ) (pamh : pam_handle_t σ)
    (flags : Int) (argv : List CStr) (p e : CStr)
    (hx : L.pam_getenv pamh.env "XDG_RUNTIME_DIR".toList = some p)
    (habs : p.head? = some '/')
    (hfit : ("unix:path=".toList ++ p ++ "/bus".toList).length ≤ PATH_MAX)
    (hcur : L.pam_getenv pamh.env "DBUS_SESSION_BUS_ADDRESS".toList = some e)
    (hne : e ≠ []) :
    ¬ (snprintf (DSBA_NAME_VALUE_PREFIX ++ L.snprintf_failed p) (35 + PATH_MAX)
      ("DBUS_SESSION_BUS_ADDRESS=unix:path=".toList ++ p ++ "/bus".toList)).2
        ≥ ((35 + PATH_MAX : Nat) : Int) ∧
    (strncmp e
      ((snprintf (DSBA_NAME_VALUE_PREFIX ++ L.snprintf_failed p) (35 + PATH_MAX)
        ("DBUS_SESSION_BUS_ADDRESS=unix:path=".toList ++ p ++ "/bus".toList)).1.drop
          DSBA_VALUE_OFFSET) (PATH_MAX + 1) = 0 ↔
      e = "unix:path=".toList ++ p ++ "/bus".toList) ∧
    ((pam_sm_open_session L pamh flags argv).line = 87 ↔
      e = "unix:path=".toList ++ p ++ "/bus".toList) := by
  have hpm : PATH_MAX = 4096 := rfl
  have hvl := dsba_value_length p
  have hel := dsba_entry_length p
  rw [hvl] at hfit
  have hpass : ¬ (snprintf (DSBA_NAME_VALUE_PREFIX ++ L.snprintf_failed p)
      (35 + PATH_MAX) (DSBA_NAME_VALUE_PREFIX ++ p ++ "/bus".toList)).2
      ≥ ((35 + PATH_MAX : Nat) : Int) := by
    rw [length_check_iff, hel]
    omega
  have hslice : (snprintf (DSBA_NAME_VALUE_PREFIX ++ L.snprintf_failed p) (35 + PATH_MAX)
      (DSBA_NAME_VALUE_PREFIX ++ p ++ "/bus".toList)).1.drop DSBA_VALUE_OFFSET
      = "unix:path=".toList ++ p ++ "/bus".toList := by
    have hi : INT_MAX = 2147483647 := rfl
    rw [buffer_slice _ p (by rw [hel]; omega)]
    exact List.take_of_length_le (by rw [hvl]; omega)
  have hcmp : strncmp e
      ((snprintf (DSBA_NAME_VALUE_PREFIX ++ L.snprintf_failed p)
          (35 + PATH_MAX) (DSBA_NAME_VALUE_PREFIX ++ p ++ "/bus".toList)).1.drop
        DSBA_VALUE_OFFSET) (PATH_MAX + 1) = 0 ↔
      e = "unix:path=".toList ++ p ++ "/bus".toList := by
    rw [hslice]
    exact strncmp_eq_zero_of_short e _ (PATH_MAX + 1) (by rw [hvl]; omega)
  refine ⟨hpass, hcmp, ?_⟩
  rw [← hcmp, (open_session_frame L pamh flags argv).2.1]
  by_cases hz : strncmp e
      ((snprintf (DSBA_NAME_VALUE_PREFIX ++ L.snprintf_failed p)
          (35 + PATH_MAX) (DSBA_NAME_VALUE_PREFIX ++ p ++ "/bus".toList)).1.drop
        DSBA_VALUE_OFFSET) (PATH_MAX + 1) = 0
  · rw [body_already_correct L ⟨pamh.env, [], []⟩ _ _ _ p e hx habs hpass hcur hne hz]
    exact ⟨fun _ => hz, fun _ => rfl⟩
  · constructor
    · intro h87
      cases ho : decide ("override".toList ∈ argv) with
      | false =>
        rw [ho, body_reject L ⟨pamh.env, [], []⟩ _ _ p e hx habs hpass hcur hne hz] at h87
        have h98 : (98 : Nat) = 87 := h87
        exact absurd h98 (by decide)
      | true =>
        rw [ho, body_override L ⟨pamh.env, [], []⟩ _ _ p e hx habs hpass hcur hne hz] at h87
        rcases assign_step_line L
          (if !is_silent flags && !decide ("quiet".toList ∈ argv) then
            pam_syslog (⟨pamh.env, [], []⟩ : pam_handle_t σ) LOG_INFO
              ("Overriding current DBUS_SESSION_BUS_ADDRESS value: ".toList ++ e)
           else ⟨pamh.env, [], []⟩) (is_silent flags) (decide ("quiet".toList ∈ argv))
          (snprintf (DSBA_NAME_VALUE_PREFIX ++ L.snprintf_failed p)
              (35 + PATH_MAX) (DSBA_NAME_VALUE_PREFIX ++ p ++ "/bus".toList)).1
          with h | h
        · rw [h] at h87
          exact absurd h87 (by decide)
        · rw [h] at h87
          exact absurd h87 (by decide)
    · intro h
      exact absurd h hz

/-- Witness of C15: XDG_RUNTIME_DIR=/run/user/1000 against an address that points
elsewhere. -/
theorem C15_bounded_comparison_exact_witness :
    ((pam_sm_open_session (refLib PAM_SUCCESS)
      (fresh (env_of [("XDG_RUNTIME_DIR".toList, "/run/user/1000".toList),
        ("DBUS_SESSION_BUS_ADDRESS".toList, "unix:path=/tmp/bus".toList)])) 0 []).line = 87 ↔
      "unix:path=/tmp/bus".toList
        = "unix:path=".toList ++ "/run/user/1000".toList ++ "/bus".toList) :=
  (C15_bounded_comparison_exact (refLib PAM_SUCCESS)
    (fresh (env_of [("XDG_RUNTIME_DIR".toList, "/run/user/1000".toList),
      ("DBUS_SESSION_BUS_ADDRESS".toList, "unix:path=/tmp/bus".toList)])) 0 []
    "/run/user/1000".toList "unix:path=/tmp/bus".toList rfl rfl (by decide) rfl
    (by decide)).2.2

/-- A run of the body that ends in PAM_SUCCESS passed both checks and then either found
the existing value equal under the bounded comparison, leaving the store alone, or had
its one call of `pam_putenv` succeed. -/
theorem body_success_cases {σ : Type} (L : PamLib σ) (env : σ) (s q o : Bool)
    (hok : (open_session_body L ⟨env, [], []⟩ s q o).status = PAM_SUCCESS) :
    ∃ p, L.pam_getenv env "XDG_RUNTIME_DIR".toList = some p ∧ p.head? = some '/' ∧
      ¬ (snprintf (DSBA_NAME_VALUE_PREFIX ++ L.snprintf_failed p)
          (35 + PATH_MAX) (DSBA_NAME_VALUE_PREFIX ++ p ++ "/bus".toList)).2
        ≥ ((35 + PATH_MAX : Nat) : Int) ∧
      ((∃ c, L.pam_getenv env "DBUS_SESSION_BUS_ADDRESS".toList = some c ∧ c ≠ [] ∧
          strncmp c
            ((snprintf (DSBA_NAME_VALUE_PREFIX ++ L.snprintf_failed p)
                (35 + PATH_MAX) (DSBA_NAME_VALUE_PREFIX ++ p ++ "/bus".toList)).1.drop
              DSBA_VALUE_OFFSET) (PATH_MAX + 1) = 0 ∧
          (open_session_body L ⟨env, [], []⟩ s q o).pamh.env = env) ∨
       ((L.pam_putenv env
            (snprintf (DSBA_NAME_VALUE_PREFIX ++ L.snprintf_failed p)
                (35 + PATH_MAX) (DSBA_NAME_VALUE_PREFIX ++ p ++ "/bus".toList)).1).1
            = PAM_SUCCESS ∧
          (open_session_body L ⟨env, [], []⟩ s q o).pamh.env = (L.pam_putenv env
            (snprintf (DSBA_NAME_VALUE_PREFIX ++ L.snprintf_failed p)
                (35 + PATH_MAX) (DSBA_NAME_VALUE_PREFIX ++ p ++ "/bus".toList)).1).2)) := by
  have hne_status : PAM_SESSION_ERR ≠ PAM_SUCCESS := by decide
  have assign_ok : ∀ (h : pam_handle_t σ) (buf : CStr), h.env = env →
      (assign_step L h s q buf).status = PAM_SUCCESS →
      (L.pam_putenv env buf).1 = PAM_SUCCESS ∧
      (assign_step L h s q buf).pamh.env = (L.pam_putenv env buf).2 := by
    intro h buf he hst
    have h1 := assign_step_status L h s q buf
    have h2 := (assign_step_putenv_calls L h s q buf).2
    rw [he] at h1 h2
    refine ⟨?_, h2⟩
    by_contra hr
    rw [(h1.2 hr).1] at hst
    exact hne_status hst
  by_cases hin : ∀ p, L.pam_getenv env "XDG_RUNTIME_DIR".toList = some p → p.head? ≠ some '/'
  · rw [body_input_error L ⟨env, [], []⟩ s q o hin] at hok
    exact absurd hok hne_status
  · simp only [not_forall, ne_eq, not_not] at hin
    obtain ⟨p, hx, habs⟩ := hin
    by_cases hlen : (snprintf (DSBA_NAME_VALUE_PREFIX ++ L.snprintf_failed p) (35 + PATH_MAX)
        (DSBA_NAME_VALUE_PREFIX ++ p ++ "/bus".toList)).2 ≥ ((35 + PATH_MAX : Nat) : Int)
    · rw [body_length_error L ⟨env, [], []⟩ s q o p hx habs hlen] at hok
      exact absurd hok hne_status
    · refine ⟨p, hx, habs, hlen, ?_⟩
      cases hcur : L.pam_getenv env "DBUS_SESSION_BUS_ADDRESS".toList with
      | none =>
        rw [body_assign_unset L ⟨env, [], []⟩ s q o p hx habs hlen (Or.inl hcur)] at hok ⊢
        exact Or.inr (assign_ok _ _ rfl hok)
      | some c =>
        by_cases hc : c = []
        · subst hc
          rw [body_assign_unset L ⟨env, [], []⟩ s q o p hx habs hlen (Or.inr hcur)] at hok ⊢
          exact Or.inr (assign_ok _ _ rfl hok)
        · by_cases hcmp : strncmp c
            ((snprintf (DSBA_NAME_VALUE_PREFIX ++ L.snprintf_failed p)
                (35 + PATH_MAX) (DSBA_NAME_VALUE_PREFIX ++ p ++ "/bus".toList)).1.drop
              DSBA_VALUE_OFFSET) (PATH_MAX + 1) = 0
          · refine Or.inl ⟨c, rfl, hc, hcmp, ?_⟩
            rw [body_already_correct L ⟨env, [], []⟩ s q o p c hx habs hlen hcur hc hcmp]
            cases s <;> cases q <;> rfl
          · cases o with
            | false =>
              rw [body_reject L ⟨env, [], []⟩ s q p c hx habs hlen hcur hc hcmp] at hok
              exact absurd hok hne_status
            | true =>
              rw [body_override L ⟨env, [], []⟩ s q p c hx habs hlen hcur hc hcmp] at hok ⊢
              refine Or.inr (assign_ok _ _ ?_ hok)
              cases s <;> cases q <;> rfl

/-- C18: over a store whose successful set binds the name before the first equals sign
to the rest of the entry, if one invocation returns PAM_SUCCESS and the resulting store
shows the same XDG_RUNTIME_DIR, then a second invocation on the resulting handle, with
any flags and arguments, returns PAM_SUCCESS by the already-correct exit (line 87), makes
no write and leaves the store as it found it. -/
theorem C18_rerun_is_noop {σ : Type} (L : PamLib σ) (pamh : pam_handle_t σ)
    (flags1 flags2 : Int) (argv1 argv2 : List CStr)
    (hbinds : SetBinds L)
    (hok : (pam_sm_open_session L pamh flags1 argv1).status = PAM_SUCCESS)
    (hsame : L.pam_getenv (pam_sm_open_session L pamh flags1 argv1).pamh.env
        "XDG_RUNTIME_DIR".toList
      = L.pam_getenv pamh.env "XDG_RUNTIME_DIR".toList) :
    (pam_sm_open_session L (pam_sm_open_session L pamh flags1 argv1).pamh flags2 argv2).status
      = PAM_SUCCESS ∧
    (pam_sm_open_session L (pam_sm_open_session L pamh flags1 argv1).pamh flags2 argv2).line
      = 87 ∧
    (pam_sm_open_session L (pam_sm_open_session L pamh flags1 argv1).pamh flags2
      argv2).pamh.putenv_calls = (pam_sm_open_session L pamh flags1 argv1).pamh.putenv_calls ∧
    (pam_sm_open_session L (pam_sm_open_session L pamh flags1 argv1).pamh flags2
      argv2).pamh.env = (pam_sm_open_session L pamh flags1 argv1).pamh.env := by
  have hf := open_session_frame L pamh flags1 argv1
  rw [hf.1] at hok
  obtain ⟨p, hx, habs, hlen, hcase⟩ := body_success_cases L pamh.env _ _ _ hok
  rw [hx] at hsame
  have key : ∃ c, L.pam_getenv (pam_sm_open_session L pamh flags1 argv1).pamh.env
      "DBUS_SESSION_BUS_ADDRESS".toList = some c ∧ c ≠ [] ∧
      strncmp c
        ((snprintf (DSBA_NAME_VALUE_PREFIX ++ L.snprintf_failed p) (35 + PATH_MAX)
          (DSBA_NAME_VALUE_PREFIX ++ p ++ "/bus".toList)).1.drop DSBA_VALUE_OFFSET)
        (PATH_MAX + 1) = 0 := by
    rcases hcase with ⟨c, hcur, hc, hcmp, henv⟩ | ⟨hput, henv⟩
    · refine ⟨c, ?_, hc, hcmp⟩
      rw [hf.2.2.1, henv]
      exact hcur
    · have hsplit : (snprintf (DSBA_NAME_VALUE_PREFIX ++ L.snprintf_failed p) (35 + PATH_MAX)
          (DSBA_NAME_VALUE_PREFIX ++ p ++ "/bus".toList)).1
          = "DBUS_SESSION_BUS_ADDRESS".toList ++ '=' ::
            (snprintf (DSBA_NAME_VALUE_PREFIX ++ L.snprintf_failed p) (35 + PATH_MAX)
              (DSBA_NAME_VALUE_PREFIX ++ p ++ "/bus".toList)).1.drop DSBA_VALUE_OFFSET := by
        rw [buffer_drop, buffer_eq]
      refine ⟨(snprintf (DSBA_NAME_VALUE_PREFIX ++ L.snprintf_failed p) (35 + PATH_MAX)
          (DSBA_NAME_VALUE_PREFIX ++ p ++ "/bus".toList)).1.drop DSBA_VALUE_OFFSET, ?_,
        buffer_drop_ne_nil _ p, strncmp_self_of_eq _ _⟩
      rw [hf.2.2.1, henv]
      rw [hsplit] at hput
      have hb := hbinds pamh.env "DBUS_SESSION_BUS_ADDRESS".toList _ (by decide) hput
      rw [← hsplit] at hb
      exact hb
  obtain ⟨c, hcur2, hc2, hcmp2⟩ := key
  have h := accepted_of_compare L (pam_sm_open_session L pamh flags1 argv1).pamh flags2
    argv2 p c hsame habs hlen hcur2 hc2 hcmp2
  exact ⟨h.1, h.2.1, h.2.2.1, h.2.2.2.1⟩

/-- Witness of C18: the address is assigned for XDG_RUNTIME_DIR=/run/user/1000, then the
hook is run again with `override`. -/
theorem C18_rerun_is_noop_witness :
    (pam_sm_open_session (refLib PAM_SUCCESS)
      (fresh (env_of [("XDG_RUNTIME_DIR".toList, "/run/user/1000".toList)])) 0 []).status
      = PAM_SUCCESS ∧
    (pam_sm_open_session (refLib PAM_SUCCESS)
      (pam_sm_open_session (refLib PAM_SUCCESS)
        (fresh (env_of [("XDG_RUNTIME_DIR".toList, "/run/user/1000".toList)])) 0 []).pamh
      0 ["override".toList]).line = 87 ∧
    (pam_sm_open_session (refLib PAM_SUCCESS)
      (pam_sm_open_session (refLib PAM_SUCCESS)
        (fresh (env_of [("XDG_RUNTIME_DIR".toList, "/run/user/1000".toList)])) 0 []).pamh
      0 ["override".toList]).pamh.putenv_calls
      = (pam_sm_open_session (refLib PAM_SUCCESS)
        (fresh (env_of [("XDG_RUNTIME_DIR".toList, "/run/user/1000".toList)])) 0
        []).pamh.putenv_calls :=
  have h := C18_rerun_is_noop (refLib PAM_SUCCESS)
    (fresh (env_of [("XDG_RUNTIME_DIR".toList, "/run/user/1000".toList)])) 0 0 []
    ["override".toList] (refLib_setBinds PAM_SUCCESS) (by decide) (by decide)
  ⟨by decide, h.2.1, h.2.2.1⟩

end PamDsba
